import Mathlib

/-
Verification of AutoQuanta's core decision logic against its
natural-language specification.

The development is a shallow embedding of the python sources
`Analysis/core/preprocessor.py`, `Analysis/core/trainer.py` and
`Analysis/utils/helpers.py`:

* pandas DataFrames become `Table` (a list of named, dtype-tagged columns
  of `Cell`s), Series become `Series`, numpy floats become `ℚ`, and the
  missing marker `NaN` becomes `Cell.missing`;
* the behaviour of the external library calls the code makes
  (`pd.to_numeric`, `pd.to_datetime`, sklearn transformers) is embedded
  through per-cell attributes and through explicit fitted-state records
  that mirror the sklearn estimators the code constructs;
* stateful python methods are translated to explicit state passing: a
  method that can mutate `self` returns the new state next to its result,
  and a method that raises becomes `Except`.

Definitions carry the names of the python functions they translate.
-/

attribute [local semireducible] Rat.inv Rat.mul Rat.add Rat.sub Rat.ofScientific

namespace AutoQuanta

/-- Value held by one cell of a pandas column.  `num` is a numeric value
(floats are embedded as rationals), `str` is an object-dtype value carrying
the result the external parsers would give on it: `numInterp` is what
`pd.to_numeric(·, errors='coerce')` yields (`none` = unparsable, i.e. NaN),
and `parsesDate` is whether `pd.to_datetime(·)` succeeds.  `missing` is NaN. -/
inductive Cell where
  | num (q : ℚ)
  | str (s : String) (numInterp : Option ℚ) (parsesDate : Bool)
  | missing
deriving DecidableEq, Repr

/-- Storage dtype of a pandas column as the code distinguishes them:
`pd.api.types.is_numeric_dtype`, the `object` dtype, and datetime columns
produced by `pd.to_datetime`. -/
inductive Dtype where
  | numeric
  | object
  | datetime
deriving DecidableEq, Repr

/-- One named column of a DataFrame. -/
structure Col where
  name : String
  dtype : Dtype
  cells : List Cell
deriving DecidableEq, Repr

/-- A pandas DataFrame: an ordered sequence of named columns. -/
abbrev Table := List Col

/-- Whether a cell is the missing marker (pandas `isna`). -/
def Cell.isMissing : Cell → Bool
  | .missing => true
  | _ => false

/-- Pandas `notna` on one cell. -/
def Cell.notna (c : Cell) : Bool := !c.isMissing

/-- The non-missing cells of a column (`Series.dropna`). -/
def dropna (cells : List Cell) : List Cell := cells.filter Cell.notna

/-- The numeric values present in a column; pandas numeric reductions
(quantile, mean, …) skip NaN. -/
def numericVals (cells : List Cell) : List ℚ :=
  cells.filterMap fun c => match c with
    | .num q => some q
    | _ => none

/-- Pandas `Series.nunique`: the number of distinct non-missing values. -/
def nunique (cells : List Cell) : Nat := (dropna cells).dedup.length

/-- Column names of a table (`df.columns`). -/
def colNames (X : Table) : List String := X.map Col.name

/-- Row count of a table (python `len(df)`). -/
def rowCount (X : Table) : Nat :=
  match X with
  | [] => 0
  | c :: _ => c.cells.length

/-- Membership test `name in df.columns`. -/
def hasColumn (X : Table) (n : String) : Bool := X.any fun c => decide (c.name = n)

/-- Pandas `df.drop(columns=names, errors='ignore')`: every column whose
name is listed is removed, others are kept in order. -/
def dropColumns (X : Table) (names : List String) : Table :=
  X.filter fun c => !(names.contains c.name)

/-- Look up the first column with the given name (`df[name]` for a table
with unique column labels). -/
def getCol (X : Table) (n : String) : Option Col := X.find? fun c => decide (c.name = n)

/-- Python `str(val)` on a cell.  String cells render as themselves and NaN
renders as `"nan"`, exactly as in python; the rendering of numeric cells
approximates float `repr` (every claim below that inspects rendered values
does so on string cells, where the embedding is exact). -/
def Cell.pyStr : Cell → String
  | .num q => toString q
  | .str s _ _ => s
  | .missing => "nan"

/-! ### `ModelTrainer._select_best_model`  (Analysis/core/trainer.py)

`ModelTrainingResult` is the dataclass of `Analysis/utils/data_structures.py`
restricted to the fields the trainer's selection and summary logic reads. -/
/-- Result record for one trained model family. -/
structure ModelTrainingResult where
  model_name : String
  mean_score : ℚ
  std_score : ℚ
  cv_scores : List ℚ
  training_time : ℚ
deriving DecidableEq, Repr

/-- Python's builtin `max(iterable, key=f)`: scans left to right and keeps
the current item only when a later item's key is strictly greater, so the
first item attaining the maximal key is returned; an empty iterable raises
(`none`). -/
def pythonMax {α : Type} (key : α → ℚ) : List α → Option α
  | [] => none
  | x :: xs => some (xs.foldl (fun acc b => if key acc < key b then b else acc) x)

/-- Translation of `ModelTrainer._select_best_model`:
`return max(results, key=lambda x: x.mean_score)`.  The `task_type`
argument is received and ignored, as in the source. -/
def ModelTrainer.select_best_model (results : List ModelTrainingResult)
    (taskType : String) : Option ModelTrainingResult :=
  pythonMax (fun x => x.mean_score) results

/-! ### `detect_task_type`  (Analysis/utils/helpers.py) -/
/-- The target series as the helper reads it: its storage-dtype predicates
(`pd.api.types.is_numeric_dtype`, `is_integer_dtype`) and its cells. -/
structure Series where
  isNumericDtype : Bool
  isIntegerDtype : Bool
  cells : List Cell
deriving DecidableEq, Repr

/-- The per-value test `x.is_integer() if isinstance(x, (int, float)) else
False` applied by `detect_task_type`: true exactly on numeric values that
are whole numbers. -/
def Cell.pyIsIntegral : Cell → Bool
  | .num q => decide (q.den = 1)
  | _ => false

/-- Translation of `detect_task_type`: numeric integer dtype with at most
20 unique values, or all non-missing values whole with at most 20 unique
values, give `'classification'`; other numeric targets `'regression'`;
non-numeric targets `'classification'`. -/
def detect_task_type (y : Series) : String :=
  if y.isNumericDtype then
    if y.isIntegerDtype && decide (nunique y.cells ≤ 20) then "classification"
    else if (dropna y.cells).all Cell.pyIsIntegral && decide (nunique y.cells ≤ 20) then
      "classification"
    else "regression"
  else "classification"

/-! ### `DataValidator._analyze_data_types` / `_is_datetime_column`
(Analysis/core/preprocessor.py) -/
/-- Suggested dtype fix for a column (`fix_method` of the fix record). -/
inductive FixMethod where
  | to_numeric
  | to_datetime
deriving DecidableEq, Repr

/-- One application of `pd.to_numeric(series, errors='coerce')` to a cell:
values that do not parse become NaN. -/
def toNumericCoerce (c : Cell) : Cell :=
  match c with
  | .num q => .num q
  | .str _ (some q) _ => .num q
  | .str _ none _ => .missing
  | .missing => .missing

/-- Python `series.notna().sum()`. -/
def notnaCount (cells : List Cell) : Nat := (cells.filter Cell.notna).length

/-- The `conversion_rate` computed by `_analyze_data_types`:
`non_null_converted / non_null_original if non_null_original > 0 else 0`. -/
def conversionRate (cells : List Cell) : ℚ :=
  let non_null_original := notnaCount cells
  let non_null_converted := notnaCount (cells.map toNumericCoerce)
  if non_null_original > 0 then (non_null_converted : ℚ) / (non_null_original : ℚ) else 0

/-- Success of `pd.to_datetime(val)` on one cell: string cells per their
`parsesDate` attribute; numeric values are accepted by pandas (epoch
offsets) and NaN yields NaT without raising. -/
def Cell.pyParsesDate : Cell → Bool
  | .str _ _ d => d
  | .num _ => true
  | .missing => true

/-- The sample `series.dropna().head(min(100, len(series)))` examined by
`DataValidator._is_datetime_column`: at most 100 non-missing values. -/
def datetimeSample (cells : List Cell) : List Cell :=
  (dropna cells).take (min 100 cells.length)

/-- Translation of `DataValidator._is_datetime_column`: parse the sample
and report whether strictly more than half of it parses. -/
def _is_datetime_column (cells : List Cell) : Bool :=
  let sample := datetimeSample cells
  let datetime_count := (sample.filter Cell.pyParsesDate).length
  if sample.length > 0 then
    decide ((datetime_count : ℚ) / (sample.length : ℚ) > 0.5)
  else false

/-- Translation of the per-column body of `DataValidator._analyze_data_types`:
numeric-dtype columns are skipped, only object-dtype columns are examined;
a conversion rate strictly above 0.8 suggests `to_numeric`, otherwise a
majority-datetime sample suggests `to_datetime`. -/
def _analyze_data_types_col (dtype : Dtype) (cells : List Cell) : Option FixMethod :=
  if dtype = Dtype.numeric then none
  else if dtype = Dtype.object then
    if conversionRate cells > 0.8 then some FixMethod.to_numeric
    else if _is_datetime_column cells then some FixMethod.to_datetime
    else none
  else none

/-- Translation of `DataValidator._analyze_data_types` over a whole table:
the mapping `dtype_fixes_` from column name to suggested fix. -/
def _analyze_data_types (X : Table) : List (String × FixMethod) :=
  X.filterMap fun c => (_analyze_data_types_col c.dtype c.cells).map fun f => (c.name, f)

/-! ### `AutoPreprocessor._identify_columns_to_drop`
(Analysis/core/preprocessor.py) -/
/-- Substring test on character lists (python `sub in s`). -/
def strContains : List Char → List Char → Bool
  | _, [] => true
  | [], _ :: _ => false
  | c :: cs, t => List.isPrefixOf t (c :: cs) || strContains cs t

/-- Python `str(col).lower()` as a character list. -/
def lowerChars (s : String) : List Char := s.data.map Char.toLower

/-- The identifier keywords of `_identify_columns_to_drop`. -/
def id_keywords : List String := ["id", "key", "uuid", "guid", "index", "_id", "pk"]

/-- `any(keyword in col_name_lower for keyword in [...])`. -/
def name_suggests_id (colName : String) : Bool :=
  id_keywords.any fun kw => strContains (lowerChars colName) kw.data

/-- `is_all_unique = X[col].nunique() == len(X) and X[col].notna().all()`. -/
def is_all_unique (X : Table) (c : Col) : Bool :=
  decide (nunique c.cells = rowCount X) && c.cells.all Cell.notna

/-- The per-character test the source applies for "mixed alphanumeric"
values: `any(char.isalpha() and char.isdigit() for char in str(val))` —
each single character is required to be both a letter and a digit. -/
def mixedAlnumCheck (s : String) : Bool := s.data.any fun ch => ch.isAlpha && ch.isDigit

/-- The per-value test of `values_look_like_ids`:
`len(str(val)) > 8 or any(char.isalpha() and char.isdigit() for char in str(val))`. -/
def looks_like_id (s : String) : Bool :=
  decide (s.data.length > 8) || mixedAlnumCheck s

/-- `values_look_like_ids`: computed over the first five rendered
non-missing values when the column is all-unique and the table non-empty,
`False` otherwise. -/
def values_look_like_ids (X : Table) (c : Col) : Bool :=
  if is_all_unique X c && decide (rowCount X > 0) then
    (((dropna c.cells).map Cell.pyStr).take 5).any looks_like_id
  else false

/-- Translation of `AutoPreprocessor._identify_columns_to_drop`: the list
of columns dropped by the identifier heuristic, in column order. -/
def _identify_columns_to_drop (drop_id_columns : Bool) (X : Table) : List String :=
  if drop_id_columns then
    X.filterMap fun c =>
      let isLarge := decide (rowCount X > 20)
      let should_drop := is_all_unique X c &&
        ((isLarge && (name_suggests_id c.name || values_look_like_ids X c)) ||
          (name_suggests_id c.name && values_look_like_ids X c))
      if should_drop then some c.name else none
  else []

/-- The per-value ID-likeness test in the words of the claim and of spec
section 4.2: a long rendered value (strictly more than 8 characters) or a
mixed-alphanumeric one, i.e. one containing both a letter and a digit. -/
def spec_looks_like_id (s : String) : Bool :=
  decide (s.data.length > 8) || ((s.data.any Char.isAlpha) && (s.data.any Char.isDigit))

/-- `values_look_like_ids` as the claim states it, differing from the code
only in the reading of "mixed alphanumeric". -/
def spec_values_look_like_ids (X : Table) (c : Col) : Bool :=
  if is_all_unique X c && decide (rowCount X > 0) then
    (((dropna c.cells).map Cell.pyStr).take 5).any spec_looks_like_id
  else false

/-- The drop condition of claim C8 for one column, following the claim's
boolean structure with the claim's reading of "mixed alphanumeric". -/
def spec_should_drop (X : Table) (c : Col) : Bool :=
  is_all_unique X c &&
    ((decide (rowCount X > 20) && (name_suggests_id c.name || spec_values_look_like_ids X c)) ||
      (name_suggests_id c.name && spec_values_look_like_ids X c))

/-- A column of 21 distinct two-character mixed-alphanumeric strings
(`"a1"`, `"b1"`, …, `"u1"`) whose name contains no identifier token. -/
def c8col : Col :=
  ⟨"code", Dtype.object,
    (List.range 21).map fun i => Cell.str (String.mk [Char.ofNat (97 + i), '1']) none false⟩

/-- A 21-row table holding only `c8col`. -/
def c8table : Table := [c8col]

/-- An object column of five non-missing values of which exactly four
(80%) coerce to numeric and none parses as a date. -/
def c7cells : List Cell :=
  [Cell.str "1" (some 1) false, Cell.str "2" (some 2) false, Cell.str "3" (some 3) false,
    Cell.str "4" (some 4) false, Cell.str "x" none false]

/-! ### `AutoPreprocessor.__init__` / `_create_transformers`
(Analysis/core/preprocessor.py) -/
/-- `DEFAULT_CONFIG['max_cardinality']` from Analysis/utils/data_structures.py. -/
def DEFAULT_CONFIG_max_cardinality : Nat := 50

/-- The configuration the `AutoPreprocessor` constructor stores on `self`.
Every field is copied verbatim from the keyword arguments; the constructor
performs no validation of any strategy name. -/
structure AutoConfig where
  target_column : String
  max_cardinality : Nat
  drop_id_columns : Bool
  handle_missing : Bool
  missing_strategy : String
  scaling_strategy : String
  handle_outliers : Bool
  outlier_method : String
  categorical_encoding : String
  enable_feature_engineering : Bool
  create_polynomial : Bool
  polynomial_degree : Nat
  create_interactions : Bool
  create_binning : Bool
  enable_validation : Bool
  remove_duplicates : Bool
  fix_data_types : Bool
  remove_constant_features : Bool
  remove_high_missing : Bool
deriving DecidableEq, Repr

/-- Description of one step of the numeric sklearn pipeline that
`_create_transformers` constructs (the estimator class and the arguments
passed to its constructor). -/
inductive NumStep where
  | outlierStep (method : String) (threshold : ℚ) (strategy : String)
  | simpleImputer (strategy : String)
  | knnImputer (n_neighbors : Nat)
  | iterativeImputer (random_state max_iter : Nat)
  | standardScaler
  | minMaxScaler
  | robustScaler
deriving DecidableEq, Repr

/-- Description of one step of the categorical sklearn pipeline that
`_create_transformers` constructs. -/
inductive CatStep where
  | constantImputer (fill_value : String)
  | oneHotEncoder (drop_first sparse_output handle_unknown_ignore : Bool)
  | targetEncoderStep (smoothing : ℚ)
  | ordinalEncoderStep (unknown_value : Int)
  | frequencyEncoderStep
deriving DecidableEq, Repr

/-- One entry of the transformer list handed to the `ColumnTransformer`:
`('num', Pipeline(steps), columns)`, `('num', 'passthrough', columns)` or
`('cat', Pipeline(steps), columns)`. -/
inductive TransformerEntry where
  | numPipe (steps : List NumStep) (columns : List String)
  | numPassthrough (columns : List String)
  | catPipe (steps : List CatStep) (columns : List String)
deriving DecidableEq, Repr

/-- Translation of `AutoPreprocessor._create_transformers`.  The `try`
around the imputer construction only wraps sklearn constructor calls,
which do not raise, so the function is total: an unrecognized
`missing_strategy` falls into the `else` branch commented `Default to
median`, and an unrecognized `categorical_encoding` falls into the branch
commented `Default to one-hot`. -/
def _create_transformers (cfg : AutoConfig) (numeric_columns categorical_columns : List String) :
    List TransformerEntry :=
  let numericEntries : List TransformerEntry :=
    if numeric_columns ≠ [] then
      let steps1 : List NumStep :=
        if cfg.handle_outliers then
          let outlier_threshold : ℚ :=
            if cfg.outlier_method = "iqr" then 1.5
            else if cfg.outlier_method = "zscore" then 3.0
            else 1.5
          [NumStep.outlierStep cfg.outlier_method outlier_threshold "clip"]
        else []
      let steps2 : List NumStep :=
        if cfg.handle_missing then
          if cfg.missing_strategy = "median" then [NumStep.simpleImputer "median"]
          else if cfg.missing_strategy = "mean" then [NumStep.simpleImputer "mean"]
          else if cfg.missing_strategy = "mode" then [NumStep.simpleImputer "most_frequent"]
          else if cfg.missing_strategy = "knn" then [NumStep.knnImputer 5]
          else if cfg.missing_strategy = "iterative" then [NumStep.iterativeImputer 42 10]
          else [NumStep.simpleImputer "median"]
        else []
      let steps3 : List NumStep :=
        if cfg.scaling_strategy = "standard" then [NumStep.standardScaler]
        else if cfg.scaling_strategy = "minmax" then [NumStep.minMaxScaler]
        else if cfg.scaling_strategy = "robust" then [NumStep.robustScaler]
        else []
      let numeric_steps := steps1 ++ steps2 ++ steps3
      if numeric_steps ≠ [] then [TransformerEntry.numPipe numeric_steps numeric_columns]
      else [TransformerEntry.numPassthrough numeric_columns]
    else []
  let catEntries : List TransformerEntry :=
    if categorical_columns ≠ [] then
      let csteps1 : List CatStep :=
        if cfg.handle_missing then [CatStep.constantImputer "_missing_"] else []
      let csteps2 : List CatStep :=
        if cfg.categorical_encoding = "onehot" then [CatStep.oneHotEncoder true false true]
        else if cfg.categorical_encoding = "target" then [CatStep.targetEncoderStep 1.0]
        else if cfg.categorical_encoding = "ordinal" then [CatStep.ordinalEncoderStep (-1)]
        else if cfg.categorical_encoding = "frequency" then [CatStep.frequencyEncoderStep]
        else [CatStep.oneHotEncoder true false true]
      [TransformerEntry.catPipe (csteps1 ++ csteps2) categorical_columns]
    else []
  numericEntries ++ catEntries

/-! ### `OutlierHandler`  (Analysis/core/preprocessor.py) -/
/-- Ascending sort of the numeric values of a column, as pandas sorts them
before quantile interpolation. -/
def sortVals (l : List ℚ) : List ℚ := List.insertionSort (· ≤ ·) l

/-- Linear interpolation at position `q * (n - 1)` of a sorted list:
the default `'linear'` interpolation of `Series.quantile`. -/
def interpQuantile (s : List ℚ) (q : ℚ) : ℚ :=
  let h := q * ((s.length : ℚ) - 1)
  let i := (⌊h⌋).toNat
  s.getD i 0 + (h - (i : ℚ)) * (s.getD (i + 1) (s.getD i 0) - s.getD i 0)

/-- Pandas `Series.quantile(q)`: NaN values are skipped, and a column with
no numeric value yields NaN (`none`). -/
def seriesQuantile (cells : List Cell) (q : ℚ) : Option ℚ :=
  let vals := numericVals cells
  if vals = [] then none
  else some (interpQuantile (sortVals vals) q)

/-- Pandas `Series.mean()` over the non-missing values (NaN when empty). -/
def seriesMean (cells : List Cell) : Option ℚ :=
  let vals := numericVals cells
  if vals = [] then none else some (vals.sum / (vals.length : ℚ))

/-- Rational stand-in for the float square root taken by `Series.std`.
The square root of the sample variance is irrational in general; this
approximation only feeds the z-score branch of the outlier handler, which
no property below depends on. -/
def ratSqrtApprox (q : ℚ) : ℚ := ((Nat.sqrt (q.num.toNat * q.den) : ℚ)) / (q.den : ℚ)

/-- Pandas `Series.std()` (sample standard deviation, `ddof = 1`): NaN for
fewer than two values. -/
def seriesStd (cells : List Cell) : Option ℚ :=
  let vals := numericVals cells
  if vals.length < 2 then none
  else
    match seriesMean cells with
    | none => none
    | some m =>
      some (ratSqrtApprox ((vals.map fun v => (v - m) ^ 2).sum / ((vals.length : ℚ) - 1)))

/-- Rational stand-in for `np.log1p`, feeding only the `'transform'`
strategy of the outlier handler, which no property below depends on. -/
def log1pApprox (q : ℚ) : ℚ := q - q ^ 2 / 2 + q ^ 3 / 3

/-- Python dict assignment `m[k] = v` on an association list kept in
insertion order: the first binding of `k` is replaced in place, a fresh key
is appended. -/
def updateAssoc {β : Type} : List (String × β) → String → β → List (String × β)
  | [], k, v => [(k, v)]
  | p :: rest, k, v => if p.1 = k then (k, v) :: rest else p :: updateAssoc rest k v

/-- Python dict lookup `m.get(k)`. -/
def lookupAssoc {β : Type} (m : List (String × β)) (k : String) : Option β :=
  (m.find? fun p => decide (p.1 = k)).map Prod.snd

/-- Comparison `x < bound` where the bound may be NaN (`none`): comparisons
against NaN are false in pandas. -/
def ltOpt (x : ℚ) (bound : Option ℚ) : Bool :=
  match bound with
  | some b => decide (x < b)
  | none => false

/-- Comparison `x > bound` with a possibly-NaN bound. -/
def gtOpt (x : ℚ) (bound : Option ℚ) : Bool :=
  match bound with
  | some b => decide (b < x)
  | none => false

/-- The entry stored in `outlier_stats_` for one column. -/
structure OutlierStat where
  count : Nat
  percentage : ℚ
deriving DecidableEq, Repr

/-- The state of an `OutlierHandler`: its three constructor arguments and
the two fitted dictionaries.  A NaN bound (from a column with no data) is
`none`. -/
structure OutlierHandlerS where
  method : String
  threshold : ℚ
  strategy : String
  outlier_bounds_ : List (String × Option ℚ × Option ℚ)
  outlier_stats_ : List (String × OutlierStat)
deriving DecidableEq, Repr

/-- `OutlierHandler.__init__`: both fitted dictionaries start empty. -/
def OutlierHandler.init (method : String) (threshold : ℚ) (strategy : String) :
    OutlierHandlerS :=
  ⟨method, threshold, strategy, [], []⟩

/-- The IQR bounds `[Q1 - threshold*IQR, Q3 + threshold*IQR]` computed by
`OutlierHandler.fit`; NaN quantiles (no data) give NaN bounds. -/
def iqrBounds (threshold : ℚ) (cells : List Cell) : Option ℚ × Option ℚ :=
  match seriesQuantile cells 0.25, seriesQuantile cells 0.75 with
  | some Q1, some Q3 =>
    (some (Q1 - threshold * (Q3 - Q1)), some (Q3 + threshold * (Q3 - Q1)))
  | _, _ => (none, none)

/-- The z-score bounds `[mean - threshold*std, mean + threshold*std]`. -/
def zscoreBounds (threshold : ℚ) (cells : List Cell) : Option ℚ × Option ℚ :=
  match seriesMean cells, seriesStd cells with
  | some m, some sd => (some (m - threshold * sd), some (m + threshold * sd))
  | _, _ => (none, none)

/-- `OutlierHandler._detect_outliers_for_column` reduced to the count its
caller stores: values outside the recorded bounds; `0` when no bounds are
recorded for the column. -/
def countOutliersWith (bounds : List (String × Option ℚ × Option ℚ)) (name : String)
    (cells : List Cell) : Nat :=
  match lookupAssoc bounds name with
  | none => 0
  | some (lo, hi) =>
    (cells.filter fun cell =>
      match cell with
      | Cell.num x => ltOpt x lo || gtOpt x hi
      | _ => false).length

/-- The body of the per-column loop of `OutlierHandler.fit`: numeric-dtype
columns get bounds from the configured method (an unrecognized method
stores none) and then outlier statistics against the freshly stored
bounds; other columns are untouched.  `nrows` is `len(X)`. -/
def OutlierHandler.fitStep (nrows : Nat) (acc : OutlierHandlerS) (c : Col) : OutlierHandlerS :=
  if c.dtype = Dtype.numeric then
    let bounds1 :=
      if acc.method = "iqr" then
        updateAssoc acc.outlier_bounds_ c.name (iqrBounds acc.threshold c.cells)
      else if acc.method = "zscore" then
        updateAssoc acc.outlier_bounds_ c.name (zscoreBounds acc.threshold c.cells)
      else acc.outlier_bounds_
    let outCount := countOutliersWith bounds1 c.name c.cells
    let pct : ℚ := if nrows > 0 then (outCount : ℚ) / (nrows : ℚ) * 100 else 0
    { acc with
      outlier_bounds_ := bounds1,
      outlier_stats_ := updateAssoc acc.outlier_stats_ c.name ⟨outCount, pct⟩ }
  else acc

/-- Translation of `OutlierHandler.fit`: iterate the numeric columns in
table order. -/
def OutlierHandler.fit (h : OutlierHandlerS) (X : Table) : OutlierHandlerS :=
  X.foldl (OutlierHandler.fitStep (rowCount X)) h

/-- Pandas `Series.clip(lower, upper)` on one cell: NaN cells and NaN
bounds are left alone. -/
def clipCell (lo hi : Option ℚ) (c : Cell) : Cell :=
  match c with
  | Cell.num x =>
    let x1 := match lo with | some l => max x l | none => x
    let x2 := match hi with | some u => min x1 u | none => x1
    Cell.num x2
  | other => other

/-- The per-column body of `OutlierHandler.transform`: numeric-dtype
columns with recorded bounds are clipped / masked / log-transformed
according to the strategy; everything else passes through. -/
def OutlierHandler.transformCol (h : OutlierHandlerS) (c : Col) : Col :=
  if c.dtype = Dtype.numeric then
    match lookupAssoc h.outlier_bounds_ c.name with
    | none => c
    | some (lo, hi) =>
      if h.strategy = "clip" then { c with cells := c.cells.map (clipCell lo hi) }
      else if h.strategy = "remove" then
        { c with cells := c.cells.map fun cell =>
            match cell with
            | Cell.num x => if ltOpt x lo || gtOpt x hi then Cell.missing else Cell.num x
            | other => other }
      else if h.strategy = "transform" then
        if c.cells.all fun cell =>
            match cell with
            | Cell.num x => decide (x > 0)
            | _ => false then
          { c with cells := c.cells.map fun cell =>
              match cell with
              | Cell.num x => Cell.num (log1pApprox x)
              | other => other }
        else c
      else c
  else c

/-- Translation of `OutlierHandler.transform` with the state threaded
explicitly: the method assigns nothing to `self`, so the state it returns
is the state it received, next to the transformed copy of the input. -/
def OutlierHandler.transformS (h : OutlierHandlerS) (X : Table) : OutlierHandlerS × Table :=
  (h, X.map (OutlierHandler.transformCol h))

/-! ### Categorical pipeline: constant imputer and encoders
(`_create_transformers` categorical branch, sklearn fitted behaviour) -/
/-- Lexicographic strict comparison of code-point lists, the order python
and numpy use to sort strings. -/
def strLtb : List Char → List Char → Bool
  | [], [] => false
  | [], _ :: _ => true
  | _ :: _, [] => false
  | a :: as, b :: bs => if a < b then true else if b < a then false else strLtb as bs

/-- Non-strict lexicographic string comparison. -/
def strLeb (a b : String) : Bool := !(strLtb b.data a.data)

/-- Ascending sort of strings (python `sorted`, numpy sort). -/
def sortedStrs (l : List String) : List String :=
  List.insertionSort (fun a b => strLeb a b = true) l

/-- `SimpleImputer(strategy='constant', fill_value='_missing_')` on one
cell: only the missing marker is replaced.  The fill value is a plain
string with no numeric or datetime reading. -/
def imputeConstant (fill : String) (c : Cell) : Cell :=
  match c with
  | Cell.missing => Cell.str fill none false
  | other => other

/-- The distinct categories `OneHotEncoder.fit` / `OrdinalEncoder.fit`
record for one column, in sorted order.  Category identity is modelled by
the rendered value, which is exact for string-valued categorical data. -/
def sortedUniqueCategories (cells : List Cell) : List String :=
  sortedStrs (cells.map Cell.pyStr).dedup

/-- `OneHotEncoder(drop='first', handle_unknown='ignore')` on one column:
one indicator column per fitted category except the first; a value outside
the fitted categories (and the dropped first category) maps to all zeros. -/
def onehotTransformCol (cats : List String) (cells : List Cell) : List (List Cell) :=
  match cats with
  | [] => []
  | _ :: rest =>
    rest.map fun cat => cells.map fun c => Cell.num (if Cell.pyStr c = cat then 1 else 0)

/-- `TargetEncoder.fit` for one column: the smoothed mean target per
non-missing category (`(n·mean_cat + smoothing·mean_global)/(n+smoothing)`),
keyed in order of appearance. -/
def targetEncoderFitCol (smoothing : ℚ) (target_mean : ℚ) (cells : List Cell) (y : List ℚ) :
    List (String × ℚ) :=
  ((dropna cells).map Cell.pyStr).dedup.map fun cat =>
    let pairs := (cells.zip y).filter fun pc => pc.1.notna && decide (Cell.pyStr pc.1 = cat)
    let cnt := pairs.length
    let catMean := (pairs.map fun pc => pc.2).sum / (cnt : ℚ)
    (cat, ((cnt : ℚ) * catMean + smoothing * target_mean) / ((cnt : ℚ) + smoothing))

/-- `TargetEncoder.transform` for one column: fitted encoding with the
global target mean as fallback (`.map(...).fillna(target_mean_)`). -/
def targetEncodeCol (target_mean : ℚ) (enc : List (String × ℚ)) (cells : List Cell) :
    List Cell :=
  cells.map fun c =>
    match c with
    | Cell.missing => Cell.num target_mean
    | other =>
      match lookupAssoc enc other.pyStr with
      | some v => Cell.num v
      | none => Cell.num target_mean

/-- `OrdinalEncoder(handle_unknown='use_encoded_value', unknown_value=-1)`
on one column: index of the value in the sorted fitted categories, `-1`
for unseen values; a missing value encodes as NaN. -/
def ordinalEncodeCol (cats : List String) (cells : List Cell) : List Cell :=
  cells.map fun c =>
    match c with
    | Cell.missing => Cell.missing
    | other =>
      match cats.findIdx? fun k => decide (k = other.pyStr) with
      | some i => Cell.num (i : ℚ)
      | none => Cell.num (-1)

/-- `FrequencyEncoder.fit` for one column: the count of each non-missing
category in the training data. -/
def frequencyFitCol (cells : List Cell) : List (String × Nat) :=
  ((dropna cells).map Cell.pyStr).dedup.map fun cat =>
    (cat, ((dropna cells).map Cell.pyStr).count cat)

/-- `FrequencyEncoder.transform` for one column: fitted count with 0 as
fallback (`.map(...).fillna(0)`). -/
def frequencyEncodeCol (freq : List (String × Nat)) (cells : List Cell) : List Cell :=
  cells.map fun c =>
    match c with
    | Cell.missing => Cell.num 0
    | other =>
      match lookupAssoc freq other.pyStr with
      | some n => Cell.num (n : ℚ)
      | none => Cell.num 0

/-- The fitted state of the encoder step of the categorical pipeline. -/
inductive EncoderS where
  | onehot (categories_ : List (List String))
  | target (target_mean_ : ℚ) (encodings_ : List (List (String × ℚ)))
  | ordinal (categories_ : List (List String))
  | frequency (frequency_maps_ : List (List (String × Nat)))
deriving DecidableEq, Repr

/-- The fitted categorical pipeline: whether the constant-imputer step is
present, plus the fitted encoder. -/
structure CatPipelineS where
  impute_missing : Bool
  encoder : EncoderS
deriving DecidableEq, Repr

/-- `ColumnTransformer` column selection: every listed column must be
present, otherwise sklearn raises. -/
def selectColumns (X : Table) (names : List String) : Except String (List Col) :=
  names.mapM fun n =>
    match getCol X n with
    | some c => Except.ok c
    | none => Except.error ("a given column is not a column of the dataframe: " ++ n)

/-- The fitted categorical pipeline's imputation stage. -/
def catApplyImpute (p : CatPipelineS) (cells : List Cell) : List Cell :=
  if p.impute_missing then cells.map (imputeConstant "_missing_") else cells

/-- Fitting the categorical pipeline built by `_create_transformers` on
the fit data: the constant imputer is stateless, and the encoder fits on
the imputed columns (sklearn `Pipeline.fit` fit-transforms each stage).
`TargetEncoder.fit` needs the target, which `AutoPreprocessor.fit` never
passes to `pipeline.fit`, so target encoding fails at fit time. -/
def catPipelineFit (handle_missing : Bool) (encoding : String) (X : Table)
    (categorical_columns : List String) (y : Option (List ℚ)) : Except String CatPipelineS :=
  match selectColumns X categorical_columns with
  | Except.error e => Except.error e
  | Except.ok cols =>
    let imputed := cols.map fun c =>
      if handle_missing then c.cells.map (imputeConstant "_missing_") else c.cells
    if encoding = "onehot" then
      Except.ok ⟨handle_missing, EncoderS.onehot (imputed.map sortedUniqueCategories)⟩
    else if encoding = "target" then
      match y with
      | none => Except.error "TargetEncoder.fit requires y, which Pipeline.fit was not given"
      | some yv =>
        let tm := yv.sum / (yv.length : ℚ)
        Except.ok ⟨handle_missing,
          EncoderS.target tm (imputed.map fun cells => targetEncoderFitCol 1.0 tm cells yv)⟩
    else if encoding = "ordinal" then
      Except.ok ⟨handle_missing, EncoderS.ordinal (imputed.map sortedUniqueCategories)⟩
    else if encoding = "frequency" then
      Except.ok ⟨handle_missing, EncoderS.frequency (imputed.map frequencyFitCol)⟩
    else
      Except.ok ⟨handle_missing, EncoderS.onehot (imputed.map sortedUniqueCategories)⟩

/-- Applying the fitted categorical pipeline to the selected columns of a
table, returning the encoded matrix as a list of columns. -/
def catPipelineTransform (p : CatPipelineS) (X : Table) (categorical_columns : List String) :
    Except String (List (List Cell)) :=
  match selectColumns X categorical_columns with
  | Except.error e => Except.error e
  | Except.ok cols =>
    let imputed := cols.map fun c => catApplyImpute p c.cells
    match p.encoder with
    | EncoderS.onehot cats =>
      if cats.length = imputed.length then
        Except.ok (((imputed.zip cats).map fun pc => onehotTransformCol pc.2 pc.1).flatten)
      else Except.error "X has a different number of features than during fitting"
    | EncoderS.target tm encs =>
      if encs.length = imputed.length then
        Except.ok ((imputed.zip encs).map fun pc => targetEncodeCol tm pc.2 pc.1)
      else Except.error "X has a different number of features than during fitting"
    | EncoderS.ordinal cats =>
      if cats.length = imputed.length then
        Except.ok ((imputed.zip cats).map fun pc => ordinalEncodeCol pc.2 pc.1)
      else Except.error "X has a different number of features than during fitting"
    | EncoderS.frequency freqs =>
      if freqs.length = imputed.length then
        Except.ok ((imputed.zip freqs).map fun pc => frequencyEncodeCol pc.2 pc.1)
      else Except.error "X has a different number of features than during fitting"

/-- Translation of `AutoPreprocessor._get_feature_names_out`: the numeric
column names, then for every categorical column either one name per
surviving one-hot category — computed from the *pre-imputation* cells via
`X[col].dropna().astype(str).unique()`, sorted, first dropped — or the
column name itself for the other encodings. -/
def _get_feature_names_out (categorical_encoding : String) (X : Table)
    (numeric_columns categorical_columns : List String) : List String :=
  numeric_columns ++
    (categorical_columns.map fun col =>
      let cells := ((getCol X col).map Col.cells).getD []
      if categorical_encoding = "onehot" then
        ((sortedStrs ((dropna cells).map Cell.pyStr).dedup).drop 1).map fun cat =>
          col ++ "_" ++ cat
      else if categorical_encoding = "target" ∨ categorical_encoding = "ordinal" ∨
          categorical_encoding = "frequency" then
        [col]
      else
        ((sortedStrs ((dropna cells).map Cell.pyStr).dedup).drop 1).map fun cat =>
          col ++ "_" ++ cat).flatten

/-- A categorical column `c` whose fit data contains the values `'a'`,
`'b'` and one missing value. -/
def c6col : Col :=
  ⟨"c", Dtype.object, [Cell.str "a" none false, Cell.missing, Cell.str "b" none false]⟩

/-- The one-column fit table of the C6 failing input. -/
def c6table : Table := [c6col]

/-- Fit table for the C5 witness: one numeric column with an outlier. -/
def c5col : Col :=
  ⟨"a", Dtype.numeric, [Cell.num 1, Cell.num 2, Cell.num 3, Cell.num 4, Cell.num 100]⟩

/-- The C5 witness fit table. -/
def c5X : Table := [c5col]

/-- A transform-time table for the C5 witness holding values far outside
the fit-time bounds and a missing value. -/
def c5Xp : Table := [⟨"a", Dtype.numeric, [Cell.num 1000, Cell.missing, Cell.num (-50)]⟩]

/-! ### Numeric pipeline: imputers and scalers (sklearn fitted behaviour) -/
/-- Conversion of a column to a float array, as sklearn's `check_array`
does before imputing or scaling: numeric values pass, NaN passes as NaN,
numeric-looking strings parse, anything else raises. -/
def colToFloats (cells : List Cell) : Except String (List (Option ℚ)) :=
  cells.mapM fun c =>
    match c with
    | Cell.num q => Except.ok (some q)
    | Cell.missing => Except.ok (none : Option ℚ)
    | Cell.str st (some q) _ => Except.ok (some q)
    | Cell.str st none _ => Except.error ("could not convert string to float: " ++ st)

/-- An `Option ℚ` matrix entry rendered back to a cell. -/
def optToCell (x : Option ℚ) : Cell :=
  match x with
  | some q => Cell.num q
  | none => Cell.missing

/-- The fitted state of the numeric imputer step.  `SimpleImputer` keeps
the per-column fill statistic (`none` for a column that was entirely
missing at fit time, which sklearn then drops at transform time).
`KNNImputer` and `IterativeImputer` are external sklearn estimators whose
fitted behaviour is carried as the pure column-completion function they
implement. -/
inductive NumImputerS where
  | simple (strategy : String) (statistics_ : List (Option ℚ))
  | knn (impute : List (List (Option ℚ)) → List (List (Option ℚ)))
  | iterative (impute : List (List (Option ℚ)) → List (List (Option ℚ)))

/-- `SimpleImputer.transform`: fill missing entries with the fitted
statistic, drop columns whose statistic is NaN, raise on a shape
mismatch. -/
def simpleImputerTransform (stats : List (Option ℚ)) (mat : List (List (Option ℚ))) :
    Except String (List (List (Option ℚ))) :=
  if stats.length = mat.length then
    Except.ok ((mat.zip stats).filterMap fun p =>
      match p.2 with
      | none => none
      | some v => some (p.1.map fun x =>
          match x with
          | none => some v
          | some q => some q))
  else Except.error "X has a different shape than during fitting"

/-- The fitted state of the scaler step: per-column location and scale
(zero scales already replaced by 1, as sklearn's `_handle_zeros_in_scale`
does at fit time). -/
inductive ScalerS where
  | standard (mean_ scale_ : List ℚ)
  | minmax (data_min_ data_range_ : List ℚ)
  | robust (center_ scale_ : List ℚ)

/-- Scaler transform: `(x - location) / scale` columnwise, NaN passing
through; raises on a shape mismatch. -/
def scalerTransform (sc : ScalerS) (mat : List (List (Option ℚ))) :
    Except String (List (List (Option ℚ))) :=
  let apply := fun (loc scale : List ℚ) =>
    if loc.length = mat.length ∧ scale.length = mat.length then
      Except.ok ((mat.zip (loc.zip scale)).map fun p =>
        p.1.map fun x => x.map fun q => (q - p.2.1) / p.2.2)
    else Except.error "X has a different shape than during fitting"
  match sc with
  | ScalerS.standard mean_ scale_ => apply mean_ scale_
  | ScalerS.minmax data_min_ data_range_ => apply data_min_ data_range_
  | ScalerS.robust center_ scale_ => apply center_ scale_

/-- The fitted numeric pipeline assembled by `_create_transformers`:
optional outlier handler, optional imputer, optional scaler, applied in
that order. -/
structure NumPipelineS where
  outlier : Option OutlierHandlerS
  imputer : Option NumImputerS
  scaler : Option ScalerS

/-- Applying the fitted numeric pipeline to the selected columns.  With
neither imputer nor scaler the (DataFrame-valued) output of the outlier
handler is passed through; otherwise the data is converted to a float
matrix first, as sklearn does. -/
def numPipelineTransform (p : NumPipelineS) (cols : List Col) :
    Except String (List (List Cell)) :=
  let cols1 :=
    match p.outlier with
    | some h => cols.map (OutlierHandler.transformCol h)
    | none => cols
  match p.imputer, p.scaler with
  | none, none => Except.ok (cols1.map Col.cells)
  | _, _ =>
    match cols1.mapM fun c => colToFloats c.cells with
    | Except.error e => Except.error e
    | Except.ok mat =>
      let afterImp : Except String (List (List (Option ℚ))) :=
        match p.imputer with
        | none => Except.ok mat
        | some (NumImputerS.simple _ stats) => simpleImputerTransform stats mat
        | some (NumImputerS.knn f) => Except.ok (f mat)
        | some (NumImputerS.iterative f) => Except.ok (f mat)
      match afterImp with
      | Except.error e => Except.error e
      | Except.ok mat2 =>
        match p.scaler with
        | none => Except.ok (mat2.map (List.map optToCell))
        | some sc =>
          match scalerTransform sc mat2 with
          | Except.error e => Except.error e
          | Except.ok mat3 => Except.ok (mat3.map (List.map optToCell))

/-- The numeric entry of the fitted `ColumnTransformer`: a fitted pipeline
or `'passthrough'`. -/
inductive NumTransformerS where
  | pipe (p : NumPipelineS)
  | passthrough

/-- The fitted `ColumnTransformer` with `remainder='drop'`: an optional
numeric entry and an optional categorical entry, each with the column
names it was fitted on; unlisted columns are dropped, and the two encoded
blocks are stacked side by side, numeric first. -/
structure ColumnTransformerS where
  num : Option (NumTransformerS × List String)
  cat : Option (CatPipelineS × List String)

/-- `ColumnTransformer.transform`. -/
def columnTransformerApply (ct : ColumnTransformerS) (X : Table) :
    Except String (List (List Cell)) :=
  let numPart : Except String (List (List Cell)) :=
    match ct.num with
    | none => Except.ok []
    | some (NumTransformerS.pipe p, colsn) =>
      match selectColumns X colsn with
      | Except.error e => Except.error e
      | Except.ok cols => numPipelineTransform p cols
    | some (NumTransformerS.passthrough, colsn) =>
      match selectColumns X colsn with
      | Except.error e => Except.error e
      | Except.ok cols => Except.ok (cols.map Col.cells)
  match numPart with
  | Except.error e => Except.error e
  | Except.ok nm =>
    match ct.cat with
    | none => Except.ok nm
    | some (p, colsc) =>
      match catPipelineTransform p X colsc with
      | Except.error e => Except.error e
      | Except.ok cm => Except.ok (nm ++ cm)

/-! ### `DataValidator.transform`  (Analysis/core/preprocessor.py) -/
/-- The state of a `DataValidator`: its constructor configuration and the
three pieces of fitted state its `transform` reads. -/
structure DataValidatorS where
  remove_duplicates : Bool
  fix_data_types : Bool
  handle_mixed_types : Bool
  remove_constant_features : Bool
  constant_threshold : ℚ
  remove_high_missing : Bool
  missing_threshold : ℚ
  columns_to_drop_ : List String
  dtype_fixes_ : List (String × FixMethod)
  duplicate_count_ : Nat

/-- Keep the first occurrence of each element (`DataFrame.drop_duplicates`
keeps the first of each duplicate row group). -/
def dedupKeepFirstAux {α : Type} [DecidableEq α] : List α → List α → List α
  | _, [] => []
  | seen, x :: xs =>
    if x ∈ seen then dedupKeepFirstAux seen xs
    else x :: dedupKeepFirstAux (x :: seen) xs

/-- Row view of a table, rows aligned by position. -/
def tableRows (X : Table) : List (List Cell) :=
  (List.range (rowCount X)).map fun i => X.map fun c => c.cells.getD i Cell.missing

/-- `DataFrame.drop_duplicates()`: remove later copies of duplicated rows,
preserving order and column structure. -/
def dropDuplicateRows (X : Table) : Table :=
  let kept := dedupKeepFirstAux [] (tableRows X)
  X.mapIdx fun j c => { c with cells := kept.map fun r => r.getD j Cell.missing }

/-- `pd.to_datetime(series, errors='coerce')` on one cell: strings that do
not parse become NaT; parsing values keep their source representation
under the datetime dtype. -/
def toDatetimeCoerce (c : Cell) : Cell :=
  match c with
  | Cell.str st i d => if d then Cell.str st i d else Cell.missing
  | other => other

/-- `DataValidator._apply_dtype_fix` on a whole column: numeric coercion
or datetime coercion, retagging the dtype. -/
def applyDtypeFix (X : Table) (name : String) (f : FixMethod) : Table :=
  X.map fun c =>
    if c.name = name then
      match f with
      | FixMethod.to_numeric =>
        { c with dtype := Dtype.numeric, cells := c.cells.map toNumericCoerce }
      | FixMethod.to_datetime =>
        { c with dtype := Dtype.datetime, cells := c.cells.map toDatetimeCoerce }
    else c

/-- Translation of `DataValidator.transform` with the state threaded
explicitly: duplicates are removed only when fit counted any, the fitted
dtype fixes are applied to the columns still present, the fitted drop list
is dropped; nothing is assigned to `self`. -/
def DataValidator.transformS (st : DataValidatorS) (X : Table) : DataValidatorS × Table :=
  let X1 := X
  let X2 :=
    if st.remove_duplicates && decide (st.duplicate_count_ > 0) then dropDuplicateRows X1
    else X1
  let X3 := st.dtype_fixes_.foldl
    (fun acc pf => if hasColumn acc pf.1 then applyDtypeFix acc pf.1 pf.2 else acc) X2
  let X4 := if st.columns_to_drop_ ≠ [] then dropColumns X3 st.columns_to_drop_ else X3
  (st, X4)

/-! ### `FeatureEngineer.transform`  (Analysis/core/preprocessor.py) -/
/-- The fitted state of a `FeatureEngineer`: its constructor flags and the
state set during `fit` — input/output names, the numeric columns, whether
a polynomial transformer was fitted, the chosen interaction pairs and the
fitted interior bin edges per binned column. -/
structure FeatureEngineerS where
  create_polynomial : Bool
  polynomial_degree : Nat
  create_interactions : Bool
  create_binning : Bool
  feature_names_in_ : List String
  numeric_columns_ : List String
  poly_fitted : Bool
  selected_interactions_ : List (String × String)
  binning_transformers_ : List (String × List ℚ)
  feature_names_out_ : List String
deriving DecidableEq, Repr

/-- `itertools.combinations_with_replacement` in its enumeration order,
as `PolynomialFeatures` enumerates monomials of one degree. -/
def combosWR {α : Type} : List α → Nat → List (List α)
  | _, 0 => [[]]
  | [], _ + 1 => []
  | x :: xs, k + 1 => ((combosWR (x :: xs) k).map fun c => x :: c) ++ combosWR xs (k + 1)
termination_by l k => (l.length, k)

/-- Run-length grouping of equal adjacent elements. -/
def runLengths {α : Type} [DecidableEq α] : List α → List (α × Nat)
  | [] => []
  | x :: xs =>
    match runLengths xs with
    | [] => [(x, 1)]
    | (y, n) :: rest => if x = y then (y, n + 1) :: rest else (x, 1) :: (y, n) :: rest

/-- `PolynomialFeatures.get_feature_names_out` naming for one monomial:
`"a"`, `"a^2"`, `"a b"`, …. -/
def polyFeatName (combo : List String) : String :=
  String.intercalate " " ((runLengths combo).map fun p =>
    if p.2 = 1 then p.1 else p.1 ++ "^" ++ toString p.2)

/-- Pandas column assignment `X[name] = values`: replace an existing
column in place, otherwise append on the right. -/
def setCol (X : Table) (c : Col) : Table :=
  if hasColumn X c.name then X.map fun c0 => if c0.name = c.name then c else c0
  else X ++ [c]

/-- Elementwise product of two numeric series; NaN propagates. -/
def cellMul : Cell → Cell → Cell
  | Cell.num a, Cell.num b => Cell.num (a * b)
  | _, _ => Cell.missing

/-- `np.searchsorted(edges, x, side='right')`: the bin index assigned by
`KBinsDiscretizer.transform` against the fitted interior edges. -/
def digitizeRight (edges : List ℚ) (x : ℚ) : ℚ :=
  ((edges.filter fun e => decide (e ≤ x)).length : ℚ)

/-- The polynomial block of `FeatureEngineer.transform`: the fitted
`PolynomialFeatures` transformer evaluated on `X[numeric_columns_]`
(raising on absent columns, non-numeric data or NaN, as sklearn does),
with monomials whose name is an original column skipped and the rest
assigned as `poly_<name>` columns. -/
def polyAddFeatures (fe : FeatureEngineerS) (X : Table) (Xeng : Table) : Except String Table :=
  match selectColumns X fe.numeric_columns_ with
  | Except.error e => Except.error e
  | Except.ok cols =>
    match cols.mapM fun c => colToFloats c.cells with
    | Except.error e => Except.error e
    | Except.ok mat =>
      if mat.any fun col => col.any Option.isNone then
        Except.error "Input X contains NaN"
      else
        let vals : List (String × List ℚ) :=
          fe.numeric_columns_.zip (mat.map fun col => col.map fun x => x.getD 0)
        let nrows := rowCount X
        let combos := ((List.range fe.polynomial_degree).map fun k =>
          combosWR fe.numeric_columns_ (k + 1)).flatten
        Except.ok (combos.foldl (fun acc combo =>
          let nm := polyFeatName combo
          if fe.numeric_columns_.contains nm then acc
          else
            let prodVals := combo.foldl
              (fun pv colnm =>
                List.zipWith (fun a b => a * b) pv
                  ((lookupAssoc vals colnm).getD (List.replicate nrows 1)))
              (List.replicate nrows 1)
            setCol acc ⟨"poly_" ++ nm, Dtype.numeric, prodVals.map Cell.num⟩) Xeng)

/-- The interaction block of `FeatureEngineer.transform`: products for
numeric×numeric pairs, rendered-string concatenation otherwise; pairs
whose columns are absent are skipped. -/
def interactionFeatures (fe : FeatureEngineerS) (X : Table) (Xeng : Table) : Table :=
  fe.selected_interactions_.foldl (fun acc pq =>
    match getCol X pq.1, getCol X pq.2 with
    | some c1, some c2 =>
      let nm := pq.1 ++ "_x_" ++ pq.2
      if c1.dtype = Dtype.numeric ∧ c2.dtype = Dtype.numeric then
        setCol acc ⟨nm, Dtype.numeric, List.zipWith cellMul c1.cells c2.cells⟩
      else
        setCol acc ⟨nm, Dtype.object,
          List.zipWith (fun a b => Cell.str (a.pyStr ++ "_" ++ b.pyStr) none false)
            c1.cells c2.cells⟩
    | _, _ => acc) Xeng

/-- The binning block of `FeatureEngineer.transform`: every fitted binning
transformer whose column is present produces a `<col>_binned` column;
sklearn raises on NaN or unconvertible values. -/
def binningFeatures (fe : FeatureEngineerS) (X : Table) (Xeng : Table) : Except String Table :=
  fe.binning_transformers_.foldlM (fun acc pe =>
    match getCol X pe.1 with
    | none => Except.ok acc
    | some c =>
      match colToFloats c.cells with
      | Except.error e => Except.error e
      | Except.ok fl =>
        if fl.any Option.isNone then Except.error "Input X contains NaN"
        else Except.ok (setCol acc ⟨pe.1 ++ "_binned", Dtype.numeric,
          fl.map fun x => Cell.num (digitizeRight pe.2 (x.getD 0))⟩)) Xeng

/-- Translation of the body of `FeatureEngineer.transform`: polynomial
features, then interaction features, then binned features, each reading
the original input and assigning into the engineered copy. -/
def FeatureEngineer.transformTable (fe : FeatureEngineerS) (X : Table) : Except String Table :=
  match (if fe.create_polynomial && fe.poly_fitted then polyAddFeatures fe X X
      else Except.ok X) with
  | Except.error e => Except.error e
  | Except.ok X1 =>
    let X2 := if fe.create_interactions then interactionFeatures fe X X1 else X1
    if fe.create_binning then binningFeatures fe X X2 else Except.ok X2

/-- `FeatureEngineer.transform` with the state threaded explicitly: the
method assigns nothing to `self`. -/
def FeatureEngineer.transformS (fe : FeatureEngineerS) (X : Table) :
    FeatureEngineerS × Except String Table :=
  (fe, FeatureEngineer.transformTable fe X)

/-! ### `AutoPreprocessor`: constructor, transform, transform_target
(Analysis/core/preprocessor.py) -/
/-- The fitted sklearn `Pipeline` the preprocessor stores: an optional
`DropColumnsTransformer` step and an optional `ColumnTransformer` step
(`fit` builds one of the four combinations, or leaves the pipeline
`None`). -/
structure PipelineS where
  drop_cols : Option (List String)
  preprocess : Option ColumnTransformerS

/-- `DropColumnsTransformer.transform`: drop the listed columns, ignoring
absent ones. -/
def dropColumnsTransform (names : List String) (X : Table) : Table := dropColumns X names

/-- `Pipeline.transform` for the pipelines `fit` builds. -/
def pipelineApply (p : PipelineS) (X : Table) : Except String (List (List Cell)) :=
  let X1 :=
    match p.drop_cols with
    | some names => dropColumnsTransform names X
    | none => X
  match p.preprocess with
  | some ct => columnTransformerApply ct X1
  | none => Except.ok (X1.map Col.cells)

/-- The full state of an `AutoPreprocessor`: the constructor configuration
(`cfg`), the task type (set by the constructor, overwritten during fit
when auto-detected), and the attributes `fit` populates.  `label_encoder`
is `LabelEncoder.classes_`, the sorted distinct target values. -/
structure AutoState where
  cfg : AutoConfig
  task_type : Option String
  pipeline : Option PipelineS
  feature_names_out : Option (List String)
  dropped_columns : List String
  label_encoder : Option (List Cell)
  outlier_handler : Option OutlierHandlerS
  feature_engineer : Option FeatureEngineerS
  data_validator : Option DataValidatorS
  is_fitted : Bool

/-- The keyword arguments of `AutoPreprocessor.__init__` with their
declared defaults. -/
structure InitArgs where
  target_column : String
  task_type : Option String := none
  max_cardinality : Option Nat := none
  drop_id_columns : Bool := true
  handle_missing : Bool := true
  missing_strategy : String := "median"
  scaling_strategy : String := "standard"
  handle_outliers : Bool := true
  outlier_method : String := "iqr"
  categorical_encoding : String := "onehot"
  enable_feature_engineering : Bool := false
  create_polynomial : Bool := false
  polynomial_degree : Nat := 2
  create_interactions : Bool := false
  create_binning : Bool := false
  enable_validation : Bool := true
  remove_duplicates : Bool := true
  fix_data_types : Bool := true
  remove_constant_features : Bool := true
  remove_high_missing : Bool := true

/-- Translation of `AutoPreprocessor.__init__`: every argument is stored
unvalidated (`max_cardinality or DEFAULT_CONFIG['max_cardinality']`, with
python's `or` treating 0 as falsy), and the fitted attributes start empty
with `is_fitted = False`.  No strategy name is checked anywhere in the
constructor. -/
def AutoPreprocessor.init (a : InitArgs) : AutoState :=
  { cfg :=
      { target_column := a.target_column
        max_cardinality :=
          match a.max_cardinality with
          | some 0 => DEFAULT_CONFIG_max_cardinality
          | some n => n
          | none => DEFAULT_CONFIG_max_cardinality
        drop_id_columns := a.drop_id_columns
        handle_missing := a.handle_missing
        missing_strategy := a.missing_strategy
        scaling_strategy := a.scaling_strategy
        handle_outliers := a.handle_outliers
        outlier_method := a.outlier_method
        categorical_encoding := a.categorical_encoding
        enable_feature_engineering := a.enable_feature_engineering
        create_polynomial := a.create_polynomial
        polynomial_degree := a.polynomial_degree
        create_interactions := a.create_interactions
        create_binning := a.create_binning
        enable_validation := a.enable_validation
        remove_duplicates := a.remove_duplicates
        fix_data_types := a.fix_data_types
        remove_constant_features := a.remove_constant_features
        remove_high_missing := a.remove_high_missing }
    task_type := a.task_type
    pipeline := none
    feature_names_out := none
    dropped_columns := []
    label_encoder := none
    outlier_handler := none
    feature_engineer := none
    data_validator := none
    is_fitted := false }

/-- The body of `AutoPreprocessor.transform` after the fitted-flag check
and the target-column drop: the fitted validator's transform, the
fit-time numeric conversions re-applied to object columns, feature
engineering, then the fitted pipeline (or `X_copy.values` when there is
none).  The returned state rebuilds `self` from the states the stateful
sub-calls return. -/
def AutoPreprocessor.transformBody (s : AutoState) (X2 : Table) :
    AutoState × Except String (List (List Cell)) :=
  let dvPair : Option DataValidatorS × Table :=
    if s.cfg.enable_validation then
      match s.data_validator with
      | some st =>
        let r := DataValidator.transformS st X2
        (some r.1, r.2)
      | none => (s.data_validator, X2)
    else (s.data_validator, X2)
  let X3 := dvPair.2
  let X4 := X3.map fun c =>
    if c.dtype = Dtype.object then
      let converted := c.cells.map toNumericCoerce
      let non_null_count := notnaCount c.cells
      if non_null_count > 0 ∧
          (notnaCount converted : ℚ) / (non_null_count : ℚ) > 0.8 then
        { c with dtype := Dtype.numeric, cells := converted }
      else c
    else c
  let fePair : Option FeatureEngineerS × Except String Table :=
    if s.cfg.enable_feature_engineering then
      match s.feature_engineer with
      | some fe =>
        let r := FeatureEngineer.transformS fe X4
        (some r.1, r.2)
      | none => (s.feature_engineer, Except.ok X4)
    else (s.feature_engineer, Except.ok X4)
  let result : Except String (List (List Cell)) :=
    match fePair.2 with
    | Except.error e => Except.error e
    | Except.ok X5 =>
      match s.pipeline with
      | none => Except.ok (X5.map Col.cells)
      | some p => pipelineApply p X5
  ({ s with data_validator := dvPair.1, feature_engineer := fePair.1 }, result)

/-- Translation of `AutoPreprocessor.transform` with the state threaded
explicitly: unfitted state raises; the target column, when present, is
dropped from the copied input before any other processing. -/
def AutoPreprocessor.transformS (s : AutoState) (X : Table) :
    AutoState × Except String (List (List Cell)) :=
  if s.is_fitted = false then
    (s, Except.error "Preprocessor must be fitted before transforming")
  else
    let X1 := X
    let X2 :=
      if hasColumn X1 s.cfg.target_column then dropColumns X1 [s.cfg.target_column] else X1
    AutoPreprocessor.transformBody s X2

/-- `LabelEncoder.transform`: index of each value in the fitted classes,
raising on unseen labels. -/
def labelEncoderTransform (classes : List Cell) (y : List Cell) : Except String (List ℚ) :=
  y.mapM fun c =>
    match classes.findIdx? fun k => decide (k = c) with
    | some i => Except.ok ((i : ℚ))
    | none => Except.error "y contains previously unseen labels"

/-- `y.astype(float)`: numeric values and NaN pass, numeric-looking
strings parse, anything else raises. -/
def astypeFloat (y : List Cell) : Except String (List (Option ℚ)) :=
  y.mapM fun c =>
    match c with
    | Cell.num q => Except.ok (some q)
    | Cell.missing => Except.ok (none : Option ℚ)
    | Cell.str st (some q) _ => Except.ok (some q)
    | Cell.str st none _ => Except.error ("could not convert string to float: " ++ st)

/-- Translation of `AutoPreprocessor.transform_target` with the state
threaded explicitly: unfitted state raises; classification with a fitted
label encoder label-encodes, everything else casts to float. -/
def AutoPreprocessor.transform_targetS (s : AutoState) (y : List Cell) :
    AutoState × Except String (List (Option ℚ)) :=
  if s.is_fitted = false then
    (s, Except.error "Preprocessor must be fitted before transforming")
  else
    if s.task_type = some "classification" then
      match s.label_encoder with
      | some classes => (s, (labelEncoderTransform classes y).map (List.map some))
      | none => (s, astypeFloat y)
    else (s, astypeFloat y)

/-- Translation of `AutoPreprocessor.get_feature_names_out` with the
state threaded explicitly: unfitted state raises, otherwise a copy of the
stored name list is returned. -/
def AutoPreprocessor.get_feature_names_outS (s : AutoState) :
    AutoState × Except String (List String) :=
  if s.is_fitted = false then
    (s, Except.error "Preprocessor must be fitted first")
  else (s, Except.ok (s.feature_names_out.getD []))

/-- A small fitted state for the C3 witness: median imputation and IQR
clipping fitted on a one-column table. -/
def c3state : AutoState :=
  { AutoPreprocessor.init { target_column := "y" } with
      is_fitted := true
      task_type := some "regression"
      feature_names_out := some ["a"]
      data_validator := some
        { remove_duplicates := true, fix_data_types := true, handle_mixed_types := true,
          remove_constant_features := true, constant_threshold := 0.95,
          remove_high_missing := true, missing_threshold := 0.8,
          columns_to_drop_ := [], dtype_fixes_ := [], duplicate_count_ := 0 }
      pipeline := some
        { drop_cols := none
          preprocess := some
            { num := some (NumTransformerS.pipe
                { outlier := some (OutlierHandler.fit (OutlierHandler.init "iqr" 1.5 "clip")
                    [⟨"a", Dtype.numeric, [Cell.num 1, Cell.num 2]⟩])
                  imputer := some (NumImputerS.simple "median" [some (3/2)])
                  scaler := none }, ["a"])
              cat := none } } }

/-- The input table of the C3 witness. -/
def c3X : Table := [⟨"a", Dtype.numeric, [Cell.num 5, Cell.missing]⟩]

/-- Fitted state for the C10 witness. -/
def c10state : AutoState :=
  { AutoPreprocessor.init { target_column := "y" } with
      is_fitted := true
      task_type := some "classification"
      feature_names_out := some ["a"]
      label_encoder := some [Cell.num 0, Cell.num 1]
      pipeline := some
        { drop_cols := none
          preprocess := some
            { num := some (NumTransformerS.passthrough, ["a"])
              cat := none } } }

/-- Input table for the C10 witness, target column included. -/
def c10X : Table :=
  [⟨"y", Dtype.numeric, [Cell.num 0, Cell.num 1]⟩,
    ⟨"a", Dtype.numeric, [Cell.num 3, Cell.num 4]⟩]

/-- The constructor arguments of the C2 counterexample: unrecognized
names for both strategies. -/
def c2args : InitArgs :=
  { target_column := "y", missing_strategy := "bogus", categorical_encoding := "mystery" }

/-! ### Theorems -/

theorem pythonMax_spec {α : Type} (key : α → ℚ) (x : α) (xs : List α) :
    ∃ m, pythonMax key (x :: xs) = some m ∧ m ∈ x :: xs ∧
      ∀ a ∈ x :: xs, key a ≤ key m := by
  induction xs generalizing x with
  | nil => exact ⟨x, rfl, List.mem_singleton.mpr rfl, by simp⟩
  | cons y ys ih =>
    by_cases h : key x < key y
    · obtain ⟨m, hm, hmem, hmax⟩ := ih y
      refine ⟨m, ?_, ?_, ?_⟩
      · simpa [pythonMax, h] using hm
      · rcases List.mem_cons.mp hmem with h1 | h1
        · exact List.mem_cons_of_mem _ (h1 ▸ List.mem_cons_self _ _)
        · exact List.mem_cons_of_mem _ (List.mem_cons_of_mem _ h1)
      · intro a ha
        rcases List.mem_cons.mp ha with h1 | h1
        · subst h1
          exact le_trans (le_of_lt h) (hmax y (List.mem_cons_self _ _))
        · exact hmax a h1
    · obtain ⟨m, hm, hmem, hmax⟩ := ih x
      refine ⟨m, ?_, ?_, ?_⟩
      · simpa [pythonMax, h] using hm
      · rcases List.mem_cons.mp hmem with h1 | h1
        · exact h1 ▸ List.mem_cons_self _ _
        · exact List.mem_cons_of_mem _ (List.mem_cons_of_mem _ h1)
      · intro a ha
        rcases List.mem_cons.mp ha with h1 | h1
        · rw [h1]
          exact hmax x (List.mem_cons_self _ _)
        · rcases List.mem_cons.mp h1 with h2 | h2
          · rw [h2]
            exact le_trans (le_of_not_lt h) (hmax x (List.mem_cons_self _ _))
          · exact hmax a (List.mem_cons_of_mem _ h2)

/-- C1: for every non-empty list of trained `ModelTrainingResult`s and for
every task type, `_select_best_model` returns a member of the list whose
`mean_score` is the maximum `mean_score` over the list. -/
theorem select_best_model_is_member_with_max_score
    (results : List ModelTrainingResult) (taskType : String)
    (h : results ≠ []) :
    ∃ best, ModelTrainer.select_best_model results taskType = some best ∧
      best ∈ results ∧
      (results.map (fun r => r.mean_score)).maximum = (best.mean_score : WithBot ℚ) := by
  match results, h with
  | x :: xs, _ =>
    obtain ⟨m, hm, hmem, hmax⟩ := pythonMax_spec (fun r => r.mean_score) x xs
    refine ⟨m, hm, hmem, ?_⟩
    rw [List.maximum_eq_coe_iff]
    constructor
    · exact List.mem_map_of_mem _ hmem
    · intro b hb
      obtain ⟨a, ha, rfl⟩ := List.mem_map.mp hb
      exact hmax a ha

theorem select_best_model_witness :
    ([⟨"rf", 1/2, 0, [], 3⟩, ⟨"xgb", 3/4, 0, [], 5⟩] : List ModelTrainingResult) ≠ [] ∧
    ∃ best, ModelTrainer.select_best_model
        [⟨"rf", 1/2, 0, [], 3⟩, ⟨"xgb", 3/4, 0, [], 5⟩] "classification" = some best ∧
      best ∈ ([⟨"rf", 1/2, 0, [], 3⟩, ⟨"xgb", 3/4, 0, [], 5⟩] : List ModelTrainingResult) ∧
      (([⟨"rf", 1/2, 0, [], 3⟩, ⟨"xgb", 3/4, 0, [], 5⟩] : List ModelTrainingResult).map
          (fun r => r.mean_score)).maximum = ((3/4 : ℚ) : WithBot ℚ) := by
  constructor
  · decide
  · have h := select_best_model_is_member_with_max_score
      [⟨"rf", 1/2, 0, [], 3⟩, ⟨"xgb", 3/4, 0, [], 5⟩] "classification" (by decide)
    obtain ⟨best, h1, h2, h3⟩ := h
    have hbest : best = ⟨"xgb", 3/4, 0, [], 5⟩ := by
      have : ModelTrainer.select_best_model
          [⟨"rf", 1/2, 0, [], 3⟩, ⟨"xgb", 3/4, 0, [], 5⟩] "classification" =
          some ⟨"xgb", 3/4, 0, [], 5⟩ := by decide
      rw [this] at h1
      exact (Option.some_injective _ h1).symm
    exact ⟨best, h1, h2, by rw [hbest] at h3; exact h3⟩

/-- C4: task-type detection returns `'classification'` exactly when the
target is non-numeric, or is integer-dtyped with at most 20 unique values,
or has all non-missing values integral with at most 20 unique values; every
other numeric target gives `'regression'`. -/
theorem detect_task_type_cases (y : Series) :
    detect_task_type y =
      if y.isNumericDtype = true then
        if (y.isIntegerDtype = true ∨ ∀ c ∈ dropna y.cells, Cell.pyIsIntegral c = true)
            ∧ nunique y.cells ≤ 20 then "classification"
        else "regression"
      else "classification" := by
  unfold detect_task_type
  by_cases hnum : y.isNumericDtype = true <;>
    by_cases hint : y.isIntegerDtype = true <;>
    by_cases hle : nunique y.cells ≤ 20 <;>
    by_cases hall : (dropna y.cells).all Cell.pyIsIntegral = true <;>
    simp [hnum, hint, hle, hall, ← List.all_eq_true]

/-- The source's "mixed alphanumeric" character test never succeeds: no
character is simultaneously a letter and a digit, so that disjunct of
`looks_like_id` is dead code (contradicting the comment above it). -/
theorem mixedAlnumCheck_always_false (s : String) : mixedAlnumCheck s = false := by
  unfold mixedAlnumCheck
  rw [List.any_eq_false]
  intro ch _
  by_contra hcon
  rw [Bool.and_eq_true] at hcon
  obtain ⟨ha, hd⟩ := hcon
  simp only [Char.isAlpha, Char.isUpper, Char.isLower, Bool.or_eq_true, Bool.and_eq_true,
    decide_eq_true_eq] at ha
  simp only [Char.isDigit, Bool.and_eq_true, decide_eq_true_eq] at hd
  obtain ⟨hd1, hd2⟩ := hd
  have hd2n : ch.val.toNat ≤ (57:UInt32).toNat := by exact_mod_cast hd2
  have h57 : (57:UInt32).toNat = 57 := by decide
  rcases ha with ⟨h1, h2⟩ | ⟨h1, h2⟩
  · have h1n : (65:UInt32).toNat ≤ ch.val.toNat := by exact_mod_cast h1
    have h65 : (65:UInt32).toNat = 65 := by decide
    omega
  · have h1n : (97:UInt32).toNat ≤ ch.val.toNat := by exact_mod_cast h1
    have h97 : (97:UInt32).toNat = 97 := by decide
    omega

/-- C8: on the failing input — a table of more than 20 rows with a column
of all-unique mixed-alphanumeric strings and no identifier token in its
name — the code keeps the column, while the claim's drop condition (spec
section 4.2) requires it to be dropped. -/
theorem identify_columns_to_drop_mixed_alnum_bug :
    _identify_columns_to_drop true c8table = [] ∧ spec_should_drop c8table c8col = true := by
  decide

/-- C7 (amended): an object-dtype column is marked for numeric conversion
exactly when strictly more than 80% of its non-missing values coerce to
numeric, and otherwise it is marked for temporal conversion exactly when
strictly more than half of a sample of at most 100 non-missing values
parses as a date. -/
theorem analyze_data_types_thresholds (cells : List Cell) :
    (_analyze_data_types_col Dtype.object cells = some FixMethod.to_numeric ↔
      conversionRate cells > 0.8) ∧
    (_analyze_data_types_col Dtype.object cells = some FixMethod.to_datetime ↔
      ¬ conversionRate cells > 0.8 ∧
        0 < (datetimeSample cells).length ∧
        (((datetimeSample cells).filter Cell.pyParsesDate).length : ℚ) /
            ((datetimeSample cells).length : ℚ) > 0.5) := by
  unfold _analyze_data_types_col _is_datetime_column
  by_cases hconv : conversionRate cells > 0.8
  · simp [hconv]
  · by_cases hpos : (datetimeSample cells).length > 0
    · by_cases hfrac :
        (((datetimeSample cells).filter Cell.pyParsesDate).length : ℚ) /
            ((datetimeSample cells).length : ℚ) > 0.5
      · simp only [if_neg hconv, if_pos hpos, if_true, decide_eq_true_eq]
        simp [hfrac, hpos, le_of_not_lt hconv]
      · simp only [if_neg hconv, if_pos hpos, if_true, decide_eq_true_eq]
        simp [hfrac, hpos, le_of_not_lt hconv]
    · simp only [if_neg hconv, if_neg hpos]
      simp [hpos, le_of_not_lt hconv]

/-- C7 counterexample: on a column where exactly 80% of the non-missing
values coerce to numeric the conversion rate is exactly 0.8 — at least 80%
as the claim requires — yet `_analyze_data_types` marks the column neither
for numeric nor for temporal conversion, because the code compares with
strict `> 0.8`. -/
theorem analyze_data_types_exact_eighty_percent :
    conversionRate c7cells ≥ 0.8 ∧
    _analyze_data_types_col Dtype.object c7cells ≠ some FixMethod.to_numeric ∧
    _analyze_data_types_col Dtype.object c7cells = none := by
  refine ⟨by decide, by decide, by decide⟩

theorem lookupAssoc_updateAssoc_self {β : Type} (m : List (String × β)) (k : String) (v : β) :
    lookupAssoc (updateAssoc m k v) k = some v := by
  induction m with
  | nil => simp [updateAssoc, lookupAssoc]
  | cons p rest ih =>
    by_cases h : p.1 = k
    · simp only [updateAssoc, if_pos h, lookupAssoc]
      rw [List.find?_cons_of_pos _ (by simp)]
      rfl
    · simp only [updateAssoc, if_neg h, lookupAssoc] at ih ⊢
      rw [List.find?_cons_of_neg _ (by simp [h])]
      exact ih

theorem lookupAssoc_updateAssoc_ne {β : Type} (m : List (String × β)) (k k' : String) (v : β)
    (hne : k' ≠ k) :
    lookupAssoc (updateAssoc m k v) k' = lookupAssoc m k' := by
  induction m with
  | nil => simp [updateAssoc, lookupAssoc, Ne.symm hne]
  | cons p rest ih =>
    by_cases h : p.1 = k
    · simp only [updateAssoc, if_pos h, lookupAssoc]
      rw [List.find?_cons_of_neg _ (by simp [Ne.symm hne]),
        List.find?_cons_of_neg _ (by simp [h, Ne.symm hne])]
    · simp only [updateAssoc, if_neg h, lookupAssoc] at ih ⊢
      by_cases h2 : p.1 = k'
      · rw [List.find?_cons_of_pos _ (by simp [h2]), List.find?_cons_of_pos _ (by simp [h2])]
      · rw [List.find?_cons_of_neg _ (by simp [h2]), List.find?_cons_of_neg _ (by simp [h2])]
        exact ih

theorem fitStep_fields (n : Nat) (acc : OutlierHandlerS) (c : Col) :
    (OutlierHandler.fitStep n acc c).method = acc.method ∧
    (OutlierHandler.fitStep n acc c).threshold = acc.threshold ∧
    (OutlierHandler.fitStep n acc c).strategy = acc.strategy := by
  unfold OutlierHandler.fitStep
  split <;> simp

theorem foldl_fitStep_fields (n : Nat) (X : Table) (h : OutlierHandlerS) :
    (X.foldl (OutlierHandler.fitStep n) h).method = h.method ∧
    (X.foldl (OutlierHandler.fitStep n) h).threshold = h.threshold ∧
    (X.foldl (OutlierHandler.fitStep n) h).strategy = h.strategy := by
  induction X generalizing h with
  | nil => simp
  | cons c X' ih =>
    rw [List.foldl_cons]
    obtain ⟨h1, h2, h3⟩ := ih (OutlierHandler.fitStep n h c)
    obtain ⟨g1, g2, g3⟩ := fitStep_fields n h c
    exact ⟨h1.trans g1, h2.trans g2, h3.trans g3⟩

theorem fitStep_bounds_other (n : Nat) (acc : OutlierHandlerS) (c : Col) (k : String)
    (hk : k ≠ c.name) :
    lookupAssoc (OutlierHandler.fitStep n acc c).outlier_bounds_ k =
      lookupAssoc acc.outlier_bounds_ k := by
  by_cases hdt : c.dtype = Dtype.numeric
  · simp only [OutlierHandler.fitStep, if_pos hdt]
    by_cases hm : acc.method = "iqr"
    · simp [hm, lookupAssoc_updateAssoc_ne _ _ _ _ hk]
    · by_cases hz : acc.method = "zscore"
      · simp [hm, hz, lookupAssoc_updateAssoc_ne _ _ _ _ hk]
      · simp [hm, hz]
  · simp [OutlierHandler.fitStep, hdt]

theorem foldl_fitStep_bounds_not_mem (n : Nat) (X : Table) (h : OutlierHandlerS) (k : String)
    (hk : k ∉ colNames X) :
    lookupAssoc ((X.foldl (OutlierHandler.fitStep n) h)).outlier_bounds_ k =
      lookupAssoc h.outlier_bounds_ k := by
  induction X generalizing h with
  | nil => simp
  | cons c X' ih =>
    simp only [colNames, List.map_cons, List.mem_cons, not_or] at hk
    rw [List.foldl_cons]
    rw [ih (OutlierHandler.fitStep n h c) (by simpa [colNames] using hk.2)]
    exact fitStep_bounds_other n h c k hk.1

theorem fitStep_bounds_self_iqr (n : Nat) (acc : OutlierHandlerS) (c : Col)
    (hdt : c.dtype = Dtype.numeric) (hm : acc.method = "iqr") :
    lookupAssoc (OutlierHandler.fitStep n acc c).outlier_bounds_ c.name =
      some (iqrBounds acc.threshold c.cells) := by
  simp [OutlierHandler.fitStep, hdt, hm, lookupAssoc_updateAssoc_self]

theorem fit_bounds_lookup_iqr (n : Nat) (X : Table) (h : OutlierHandlerS) (c0 : Col)
    (hnd : (colNames X).Nodup) (hfind : getCol X c0.name = some c0)
    (hdt : c0.dtype = Dtype.numeric) (hm : h.method = "iqr") :
    lookupAssoc ((X.foldl (OutlierHandler.fitStep n) h)).outlier_bounds_ c0.name =
      some (iqrBounds h.threshold c0.cells) := by
  induction X generalizing h with
  | nil => simp [getCol] at hfind
  | cons c X' ih =>
    simp only [colNames, List.map_cons, List.nodup_cons] at hnd
    rw [List.foldl_cons]
    by_cases hname : c.name = c0.name
    · have hc : c = c0 := by
        simp only [getCol] at hfind
        rw [List.find?_cons_of_pos _ (by simp [hname])] at hfind
        exact Option.some_injective _ hfind
      have hnotin : c0.name ∉ colNames X' := by
        rw [← hname]
        simpa [colNames] using hnd.1
      rw [foldl_fitStep_bounds_not_mem n X' _ _ hnotin]
      subst hc
      exact fitStep_bounds_self_iqr n h c hdt hm
    · have hfind' : getCol X' c0.name = some c0 := by
        simp only [getCol] at hfind ⊢
        rwa [List.find?_cons_of_neg _ (by simp [hname])] at hfind
      have := ih (OutlierHandler.fitStep n h c) hnd.2 hfind'
        ((fitStep_fields n h c).1.trans hm)
      rw [this, (fitStep_fields n h c).2.1]

theorem getD_eq_get (s : List ℚ) (i : Nat) (h : i < s.length) (d : ℚ) :
    s.getD i d = s.get ⟨i, h⟩ := by
  rw [List.getD_eq_getD_get?, List.get?_eq_get h]
  rfl

theorem sorted_getD_le (s : List ℚ) (hs : List.Sorted (· ≤ ·) s) (i j : Nat) (hij : i ≤ j)
    (hj : j < s.length) (d e : ℚ) : s.getD i d ≤ s.getD j e := by
  have hi : i < s.length := Nat.lt_of_le_of_lt hij hj
  rw [getD_eq_get s i hi d, getD_eq_get s j hj e]
  exact List.Sorted.rel_get_of_le hs hij

theorem floorPos_cast_le (h : ℚ) (h0 : 0 ≤ h) : ((⌊h⌋.toNat : ℚ)) ≤ h := by
  have hnn : 0 ≤ ⌊h⌋ := Int.floor_nonneg.mpr h0
  have : ((⌊h⌋.toNat : ℤ) : ℚ) = ((⌊h⌋ : ℤ) : ℚ) := by
    rw [Int.toNat_of_nonneg hnn]
  calc ((⌊h⌋.toNat : ℚ)) = ((⌊h⌋.toNat : ℤ) : ℚ) := by push_cast; ring
    _ = ((⌊h⌋ : ℤ) : ℚ) := this
    _ ≤ h := Int.floor_le h

theorem lt_floorPos_add_one (h : ℚ) (h0 : 0 ≤ h) : h < (⌊h⌋.toNat : ℚ) + 1 := by
  have hnn : 0 ≤ ⌊h⌋ := Int.floor_nonneg.mpr h0
  have heq : ((⌊h⌋.toNat : ℚ)) = ((⌊h⌋ : ℤ) : ℚ) := by
    rw [show ((⌊h⌋.toNat : ℚ)) = ((⌊h⌋.toNat : ℤ) : ℚ) by push_cast; ring, Int.toNat_of_nonneg hnn]
  rw [heq]
  exact Int.lt_floor_add_one h

theorem interpQuantile_between (s : List ℚ) (hs : List.Sorted (· ≤ ·) s) (hne : s ≠ [])
    (q : ℚ) (hq0 : 0 ≤ q) :
    s.getD ((⌊q * ((s.length : ℚ) - 1)⌋).toNat) 0 ≤ interpQuantile s q ∧
    interpQuantile s q ≤ s.getD ((⌊q * ((s.length : ℚ) - 1)⌋).toNat + 1)
        (s.getD ((⌊q * ((s.length : ℚ) - 1)⌋).toNat) 0) := by
  have hn : 1 ≤ s.length := List.length_pos.mpr hne
  have hc : (0:ℚ) ≤ (s.length : ℚ) - 1 := by
    have : (1:ℚ) ≤ (s.length : ℚ) := by exact_mod_cast hn
    linarith
  set hpos := q * ((s.length : ℚ) - 1) with hposdef
  have h0 : 0 ≤ hpos := mul_nonneg hq0 hc
  set i := (⌊hpos⌋).toNat with hidef
  have hile : (i : ℚ) ≤ hpos := floorPos_cast_le hpos h0
  have hilt : hpos < (i : ℚ) + 1 := lt_floorPos_add_one hpos h0
  have hlohi : s.getD i 0 ≤ s.getD (i + 1) (s.getD i 0) := by
    by_cases hrange : i + 1 < s.length
    · exact sorted_getD_le s hs i (i+1) (Nat.le_succ i) hrange 0 _
    · rw [List.getD_eq_default _ _ (Nat.le_of_not_lt hrange)]
  have hexp : interpQuantile s q =
      s.getD i 0 + (hpos - (i:ℚ)) * (s.getD (i + 1) (s.getD i 0) - s.getD i 0) := rfl
  rw [hexp]
  constructor
  · nlinarith [mul_nonneg (sub_nonneg.mpr hile) (sub_nonneg.mpr hlohi)]
  · nlinarith [mul_le_mul_of_nonneg_right (le_of_lt (sub_lt_iff_lt_add.mpr hilt))
      (sub_nonneg.mpr hlohi)]

theorem interpQuantile_mono (s : List ℚ) (hs : List.Sorted (· ≤ ·) s) (hne : s ≠ [])
    (p q : ℚ) (hp0 : 0 ≤ p) (hpq : p ≤ q) (hq1 : q ≤ 1) :
    interpQuantile s p ≤ interpQuantile s q := by
  have hq0 : 0 ≤ q := le_trans hp0 hpq
  have hp1 : p ≤ 1 := le_trans hpq hq1
  have hn : 1 ≤ s.length := List.length_pos.mpr hne
  have hc : (0:ℚ) ≤ (s.length : ℚ) - 1 := by
    have : (1:ℚ) ≤ (s.length : ℚ) := by exact_mod_cast hn
    linarith
  have hpq' : p * ((s.length : ℚ) - 1) ≤ q * ((s.length : ℚ) - 1) :=
    mul_le_mul_of_nonneg_right hpq hc
  have hij : (⌊p * ((s.length : ℚ) - 1)⌋).toNat ≤ (⌊q * ((s.length : ℚ) - 1)⌋).toNat :=
    Int.toNat_le_toNat (Int.floor_mono hpq')
  have hjlt : (⌊q * ((s.length : ℚ) - 1)⌋).toNat < s.length := by
    have h1 : q * ((s.length : ℚ) - 1) ≤ (s.length : ℚ) - 1 := by nlinarith
    have h2 : ⌊q * ((s.length : ℚ) - 1)⌋ ≤ ⌊((s.length : ℚ) - 1)⌋ := Int.floor_mono h1
    have h3 : ((s.length : ℚ) - 1) = (((s.length : ℤ) - 1 : ℤ) : ℚ) := by push_cast; ring
    have h4 : ⌊((s.length : ℚ) - 1)⌋ = (s.length : ℤ) - 1 := by rw [h3, Int.floor_intCast]
    omega
  by_cases hcase : (⌊p * ((s.length : ℚ) - 1)⌋).toNat = (⌊q * ((s.length : ℚ) - 1)⌋).toNat
  · have h0p : 0 ≤ p * ((s.length : ℚ) - 1) := mul_nonneg hp0 hc
    have hile : ((((⌊p * ((s.length : ℚ) - 1)⌋).toNat) : ℚ)) ≤ p * ((s.length : ℚ) - 1) :=
      floorPos_cast_le _ h0p
    have hlohi : s.getD ((⌊p * ((s.length : ℚ) - 1)⌋).toNat) 0 ≤
        s.getD ((⌊p * ((s.length : ℚ) - 1)⌋).toNat + 1)
          (s.getD ((⌊p * ((s.length : ℚ) - 1)⌋).toNat) 0) := by
      by_cases hrange : (⌊p * ((s.length : ℚ) - 1)⌋).toNat + 1 < s.length
      · exact sorted_getD_le s hs _ _ (Nat.le_succ _) hrange 0 _
      · rw [List.getD_eq_default _ _ (Nat.le_of_not_lt hrange)]
    simp only [interpQuantile, ← hcase]
    nlinarith [hlohi, hpq']
  · have hlt : (⌊p * ((s.length : ℚ) - 1)⌋).toNat < (⌊q * ((s.length : ℚ) - 1)⌋).toNat :=
      lt_of_le_of_ne hij hcase
    have hb1 := interpQuantile_between s hs hne p hp0
    have hb2 := interpQuantile_between s hs hne q hq0
    calc interpQuantile s p
        ≤ s.getD ((⌊p * ((s.length : ℚ) - 1)⌋).toNat + 1)
            (s.getD ((⌊p * ((s.length : ℚ) - 1)⌋).toNat) 0) := hb1.2
      _ ≤ s.getD ((⌊q * ((s.length : ℚ) - 1)⌋).toNat) 0 :=
          sorted_getD_le s hs _ _ (Nat.succ_le_of_lt hlt) hjlt _ _
      _ ≤ interpQuantile s q := hb2.1

theorem sortVals_sorted (l : List ℚ) : List.Sorted (· ≤ ·) (sortVals l) :=
  List.sorted_insertionSort _ l

theorem sortVals_ne_nil (l : List ℚ) (h : l ≠ []) : sortVals l ≠ [] := by
  intro hcon
  have hlen := (List.perm_insertionSort (· ≤ ·) l).length_eq
  rw [show List.insertionSort (· ≤ ·) l = sortVals l from rfl, hcon] at hlen
  exact h (List.length_eq_zero.mp hlen.symm)

theorem q1_le_q3 (l : List ℚ) (h : l ≠ []) :
    interpQuantile (sortVals l) 0.25 ≤ interpQuantile (sortVals l) 0.75 :=
  interpQuantile_mono (sortVals l) (sortVals_sorted l) (sortVals_ne_nil l h)
    0.25 0.75 (by norm_num) (by norm_num) (by norm_num)

theorem transformCol_name_dtype (h : OutlierHandlerS) (c : Col) :
    (OutlierHandler.transformCol h c).name = c.name ∧
    (OutlierHandler.transformCol h c).dtype = c.dtype := by
  by_cases h1 : c.dtype = Dtype.numeric
  · simp only [OutlierHandler.transformCol, if_pos h1]
    cases hb : lookupAssoc h.outlier_bounds_ c.name with
    | none => exact ⟨rfl, rfl⟩
    | some b =>
      obtain ⟨lo, hi⟩ := b
      by_cases h2 : h.strategy = "clip"
      · simp [h2]
      · by_cases h3 : h.strategy = "remove"
        · simp [h2, h3]
        · by_cases h4 : h.strategy = "transform"
          · by_cases h5 : c.cells.all fun cell =>
                match cell with
                | Cell.num x => decide (x > 0)
                | _ => false
            · simp [h2, h3, h4, h5]
            · simp [h2, h3, h4, h5]
          · simp [h2, h3, h4]
  · simp [OutlierHandler.transformCol, h1]

theorem transformCol_clip (h : OutlierHandlerS) (c : Col) (lo hi : Option ℚ)
    (hdt : c.dtype = Dtype.numeric) (hb : lookupAssoc h.outlier_bounds_ c.name = some (lo, hi))
    (hst : h.strategy = "clip") :
    OutlierHandler.transformCol h c = { c with cells := c.cells.map (clipCell lo hi) } := by
  simp [OutlierHandler.transformCol, hdt, hb, hst]

/-- C5: fitting a fresh `OutlierHandler` with method `'iqr'`, threshold
`1.5` and strategy `'clip'` on a table `X` whose column `colName` is
numeric with at least one value stores the bounds
`[Q1 - 1.5*IQR, Q3 + 1.5*IQR]` computed from the fit data for that column;
`transform` leaves the fitted state (hence the bounds) unchanged; and in
the transformed output of any table, every value of a numeric column named
`colName` lies within those fit-time bounds. -/
theorem outlier_iqr_clip_within_bounds (X Xp : Table) (colName : String) (c0 : Col)
    (hnd : (colNames X).Nodup)
    (hfind : getCol X colName = some c0)
    (hdt : c0.dtype = Dtype.numeric)
    (hvals : numericVals c0.cells ≠ []) :
    ∃ Q1 Q3,
      seriesQuantile c0.cells 0.25 = some Q1 ∧
      seriesQuantile c0.cells 0.75 = some Q3 ∧
      lookupAssoc (OutlierHandler.fit (OutlierHandler.init "iqr" 1.5 "clip") X).outlier_bounds_
          colName =
        some (some (Q1 - 1.5 * (Q3 - Q1)), some (Q3 + 1.5 * (Q3 - Q1))) ∧
      (OutlierHandler.transformS
          (OutlierHandler.fit (OutlierHandler.init "iqr" 1.5 "clip") X) Xp).1 =
        OutlierHandler.fit (OutlierHandler.init "iqr" 1.5 "clip") X ∧
      ∀ c ∈ (OutlierHandler.transformS
          (OutlierHandler.fit (OutlierHandler.init "iqr" 1.5 "clip") X) Xp).2,
        c.name = colName → c.dtype = Dtype.numeric →
        ∀ x : ℚ, Cell.num x ∈ c.cells →
          Q1 - 1.5 * (Q3 - Q1) ≤ x ∧ x ≤ Q3 + 1.5 * (Q3 - Q1) := by
  have hname : c0.name = colName := by
    have := List.find?_some hfind
    exact of_decide_eq_true this
  have hQ1 : seriesQuantile c0.cells 0.25 =
      some (interpQuantile (sortVals (numericVals c0.cells)) 0.25) := by
    simp [seriesQuantile, hvals]
  have hQ3 : seriesQuantile c0.cells 0.75 =
      some (interpQuantile (sortVals (numericVals c0.cells)) 0.75) := by
    simp [seriesQuantile, hvals]
  have hQle : interpQuantile (sortVals (numericVals c0.cells)) 0.25 ≤
      interpQuantile (sortVals (numericVals c0.cells)) 0.75 := q1_le_q3 _ hvals
  have hfind2 : getCol X c0.name = some c0 := by rw [hname]; exact hfind
  have hfields := foldl_fitStep_fields (rowCount X) X (OutlierHandler.init "iqr" 1.5 "clip")
  have hlook := fit_bounds_lookup_iqr (rowCount X) X (OutlierHandler.init "iqr" 1.5 "clip")
    c0 hnd hfind2 hdt rfl
  rw [hname] at hlook
  have hbounds : iqrBounds (OutlierHandler.init "iqr" 1.5 "clip").threshold c0.cells =
      (some (interpQuantile (sortVals (numericVals c0.cells)) 0.25 -
          1.5 * (interpQuantile (sortVals (numericVals c0.cells)) 0.75 -
            interpQuantile (sortVals (numericVals c0.cells)) 0.25)),
        some (interpQuantile (sortVals (numericVals c0.cells)) 0.75 +
          1.5 * (interpQuantile (sortVals (numericVals c0.cells)) 0.75 -
            interpQuantile (sortVals (numericVals c0.cells)) 0.25))) := by
    simp [iqrBounds, hQ1, hQ3, OutlierHandler.init]
  refine ⟨_, _, hQ1, hQ3, ?_, rfl, ?_⟩
  · rw [show OutlierHandler.fit (OutlierHandler.init "iqr" 1.5 "clip") X =
        X.foldl (OutlierHandler.fitStep (rowCount X)) (OutlierHandler.init "iqr" 1.5 "clip")
        from rfl]
    rw [hlook, hbounds]
  · intro c hc hcname hcdt x hx
    simp only [OutlierHandler.transformS] at hc
    obtain ⟨cin, hcin, rfl⟩ := List.mem_map.mp hc
    have hnm := transformCol_name_dtype
      (OutlierHandler.fit (OutlierHandler.init "iqr" 1.5 "clip") X) cin
    have hcinname : cin.name = colName := by rw [← hnm.1]; exact hcname
    have hcindt : cin.dtype = Dtype.numeric := by rw [← hnm.2]; exact hcdt
    have hlook2 : lookupAssoc
        (OutlierHandler.fit (OutlierHandler.init "iqr" 1.5 "clip") X).outlier_bounds_
        cin.name =
        some (some (interpQuantile (sortVals (numericVals c0.cells)) 0.25 -
            1.5 * (interpQuantile (sortVals (numericVals c0.cells)) 0.75 -
              interpQuantile (sortVals (numericVals c0.cells)) 0.25)),
          some (interpQuantile (sortVals (numericVals c0.cells)) 0.75 +
            1.5 * (interpQuantile (sortVals (numericVals c0.cells)) 0.75 -
              interpQuantile (sortVals (numericVals c0.cells)) 0.25))) := by
      rw [hcinname]
      rw [show OutlierHandler.fit (OutlierHandler.init "iqr" 1.5 "clip") X =
          X.foldl (OutlierHandler.fitStep (rowCount X)) (OutlierHandler.init "iqr" 1.5 "clip")
          from rfl]
      rw [hlook, hbounds]
    have hstrat : (OutlierHandler.fit (OutlierHandler.init "iqr" 1.5 "clip") X).strategy =
        "clip" := hfields.2.2
    rw [transformCol_clip _ cin _ _ hcindt hlook2 hstrat] at hx
    simp only [List.mem_map] at hx
    obtain ⟨cell, hcell, hceq⟩ := hx
    cases cell with
    | num x0 =>
      have hxval : x = min (max x0 (interpQuantile (sortVals (numericVals c0.cells)) 0.25 -
          1.5 * (interpQuantile (sortVals (numericVals c0.cells)) 0.75 -
            interpQuantile (sortVals (numericVals c0.cells)) 0.25)))
          (interpQuantile (sortVals (numericVals c0.cells)) 0.75 +
            1.5 * (interpQuantile (sortVals (numericVals c0.cells)) 0.75 -
              interpQuantile (sortVals (numericVals c0.cells)) 0.25)) := by
        have : clipCell
            (some (interpQuantile (sortVals (numericVals c0.cells)) 0.25 -
              1.5 * (interpQuantile (sortVals (numericVals c0.cells)) 0.75 -
                interpQuantile (sortVals (numericVals c0.cells)) 0.25)))
            (some (interpQuantile (sortVals (numericVals c0.cells)) 0.75 +
              1.5 * (interpQuantile (sortVals (numericVals c0.cells)) 0.75 -
                interpQuantile (sortVals (numericVals c0.cells)) 0.25)))
            (Cell.num x0) = Cell.num (min (max x0 _) _) := rfl
        rw [this] at hceq
        exact (Cell.num.injEq _ _).mp hceq.symm
      have hlu : interpQuantile (sortVals (numericVals c0.cells)) 0.25 -
          1.5 * (interpQuantile (sortVals (numericVals c0.cells)) 0.75 -
            interpQuantile (sortVals (numericVals c0.cells)) 0.25) ≤
          interpQuantile (sortVals (numericVals c0.cells)) 0.75 +
          1.5 * (interpQuantile (sortVals (numericVals c0.cells)) 0.75 -
            interpQuantile (sortVals (numericVals c0.cells)) 0.25) := by linarith
      constructor
      · rw [hxval]
        exact le_min (le_max_right _ _) hlu
      · rw [hxval]
        exact min_le_right _ _
    | str st ni pd => exact absurd hceq (by simp [clipCell])
    | missing => exact absurd hceq (by simp [clipCell])

/-- C6: on a fit table whose categorical column contains a missing value,
one-hot encoding produces a 2-column matrix (the imputer's `_missing_`
sentinel becomes a category, giving categories `_missing_ < a < b`, first
dropped), while `_get_feature_names_out` — which reads the categories from
the *dropna'd pre-imputation* data — produces only 1 name.  The
feature-name count does not equal the transformed matrix column count. -/
theorem onehot_feature_names_shorter_than_matrix :
    (_get_feature_names_out "onehot" c6table [] ["c"]).length = 1 ∧
    ((catPipelineFit true "onehot" c6table ["c"] none).toOption.map fun p =>
      (catPipelineTransform p c6table ["c"]).toOption.map List.length) =
      some (some 2) := by
  decide

theorem outlier_iqr_clip_witness :
    (colNames c5X).Nodup ∧ getCol c5X "a" = some c5col ∧ c5col.dtype = Dtype.numeric ∧
    numericVals c5col.cells ≠ [] ∧
    (∃ Q1 Q3,
      seriesQuantile c5col.cells 0.25 = some Q1 ∧
      seriesQuantile c5col.cells 0.75 = some Q3 ∧
      lookupAssoc (OutlierHandler.fit (OutlierHandler.init "iqr" 1.5 "clip") c5X).outlier_bounds_
          "a" =
        some (some (Q1 - 1.5 * (Q3 - Q1)), some (Q3 + 1.5 * (Q3 - Q1))) ∧
      (OutlierHandler.transformS
          (OutlierHandler.fit (OutlierHandler.init "iqr" 1.5 "clip") c5X) c5Xp).1 =
        OutlierHandler.fit (OutlierHandler.init "iqr" 1.5 "clip") c5X ∧
      ∀ c ∈ (OutlierHandler.transformS
          (OutlierHandler.fit (OutlierHandler.init "iqr" 1.5 "clip") c5X) c5Xp).2,
        c.name = "a" → c.dtype = Dtype.numeric →
        ∀ x : ℚ, Cell.num x ∈ c.cells →
          Q1 - 1.5 * (Q3 - Q1) ≤ x ∧ x ≤ Q3 + 1.5 * (Q3 - Q1)) :=
  ⟨by decide, by decide, rfl, by decide,
    outlier_iqr_clip_within_bounds c5X c5Xp "a" c5col (by decide) (by decide) rfl (by decide)⟩

theorem transformBody_state (s : AutoState) (X2 : Table) :
    (AutoPreprocessor.transformBody s X2).1 = s := by
  unfold AutoPreprocessor.transformBody
  by_cases hv : s.cfg.enable_validation <;>
    cases hdvs : s.data_validator <;>
    by_cases hfe : s.cfg.enable_feature_engineering <;>
    cases hfes : s.feature_engineer <;>
    simp [hv, hdvs, hfe, hfes, DataValidator.transformS, FeatureEngineer.transformS] <;>
    (try rw [← hdvs]) <;> (try rw [← hfes])

/-- C3: for every fitted preprocessor, `transform` leaves the fitted state
— validator, engineered-feature state, pipeline (imputer statistics,
outlier bounds, encoders), feature names, dropped columns — exactly as it
was after `fit`, and calling `transform` again on the same input from the
state left by the first call produces the identical state and output. -/
theorem transform_preserves_fitted_state (s : AutoState) (X : Table)
    (hfit : s.is_fitted = true) :
    (AutoPreprocessor.transformS s X).1 = s ∧
    AutoPreprocessor.transformS ((AutoPreprocessor.transformS s X).1) X =
      AutoPreprocessor.transformS s X := by
  have h1 : (AutoPreprocessor.transformS s X).1 = s := by
    unfold AutoPreprocessor.transformS
    by_cases hf : s.is_fitted = false
    · simp [hf]
    · simp [hf, transformBody_state]
  exact ⟨h1, by rw [h1]⟩

theorem transform_preserves_fitted_state_witness :
    c3state.is_fitted = true ∧
    ((AutoPreprocessor.transformS c3state c3X).1 = c3state ∧
      AutoPreprocessor.transformS ((AutoPreprocessor.transformS c3state c3X).1) c3X =
        AutoPreprocessor.transformS c3state c3X) :=
  ⟨rfl, transform_preserves_fitted_state c3state c3X rfl⟩

/-- C9: calling `transform`, `transform_target` or `get_feature_names_out`
on a preprocessor that was never fitted raises, and the call leaves the
state unchanged. -/
theorem unfitted_calls_raise (s : AutoState) (X : Table) (y : List Cell)
    (h : s.is_fitted = false) :
    AutoPreprocessor.transformS s X =
      (s, Except.error "Preprocessor must be fitted before transforming") ∧
    AutoPreprocessor.transform_targetS s y =
      (s, Except.error "Preprocessor must be fitted before transforming") ∧
    AutoPreprocessor.get_feature_names_outS s =
      (s, Except.error "Preprocessor must be fitted first") := by
  unfold AutoPreprocessor.transformS AutoPreprocessor.transform_targetS
    AutoPreprocessor.get_feature_names_outS
  simp [h]

theorem unfitted_calls_raise_witness :
    (AutoPreprocessor.init { target_column := "price" }).is_fitted = false ∧
    (AutoPreprocessor.transformS (AutoPreprocessor.init { target_column := "price" })
        [⟨"a", Dtype.numeric, [Cell.num 1]⟩] =
      (AutoPreprocessor.init { target_column := "price" },
        Except.error "Preprocessor must be fitted before transforming") ∧
    AutoPreprocessor.transform_targetS (AutoPreprocessor.init { target_column := "price" })
        [Cell.num 1] =
      (AutoPreprocessor.init { target_column := "price" },
        Except.error "Preprocessor must be fitted before transforming") ∧
    AutoPreprocessor.get_feature_names_outS (AutoPreprocessor.init { target_column := "price" }) =
      (AutoPreprocessor.init { target_column := "price" },
        Except.error "Preprocessor must be fitted first")) :=
  ⟨rfl, unfitted_calls_raise (AutoPreprocessor.init { target_column := "price" })
    [⟨"a", Dtype.numeric, [Cell.num 1]⟩] [Cell.num 1] rfl⟩

theorem hasColumn_dropColumns_single (X : Table) (t : String) :
    hasColumn (dropColumns X [t]) t = false := by
  simp only [hasColumn, dropColumns, List.any_eq_false]
  intro c hc
  rw [List.mem_filter] at hc
  simp only [List.contains_cons, List.contains_nil, Bool.or_false, Bool.not_eq_true',
    beq_eq_false_iff_ne, ne_eq] at hc
  simp [hc.2]

theorem dropColumns_single_eq_self (X : Table) (t : String)
    (h : hasColumn X t = false) : dropColumns X [t] = X := by
  unfold dropColumns
  apply List.filter_eq_self.mpr
  intro c hc
  simp only [hasColumn, List.any_eq_false] at h
  have := h c hc
  simp only [decide_eq_true_eq] at this
  simp [this]

/-- C10: for every fitted preprocessor, transforming a table that still
contains the target column gives exactly the same state and output as
transforming the same table with the target column removed: the target
column is dropped before any other processing. -/
theorem transform_drops_target_column (s : AutoState) (X : Table)
    (hfit : s.is_fitted = true) :
    AutoPreprocessor.transformS s X =
      AutoPreprocessor.transformS s (dropColumns X [s.cfg.target_column]) := by
  unfold AutoPreprocessor.transformS
  by_cases hf : s.is_fitted = false
  · simp [hf]
  · simp only [hf, if_false]
    have harg :
        (if hasColumn X s.cfg.target_column then dropColumns X [s.cfg.target_column] else X) =
        (if hasColumn (dropColumns X [s.cfg.target_column]) s.cfg.target_column then
          dropColumns (dropColumns X [s.cfg.target_column]) [s.cfg.target_column]
        else dropColumns X [s.cfg.target_column]) := by
      rw [hasColumn_dropColumns_single X s.cfg.target_column]
      by_cases ht : hasColumn X s.cfg.target_column
      · simp [ht]
      · rw [Bool.not_eq_true] at ht
        simp [ht, dropColumns_single_eq_self X s.cfg.target_column ht]
    rw [harg]

theorem transform_drops_target_column_witness :
    c10state.is_fitted = true ∧
    AutoPreprocessor.transformS c10state c10X =
      AutoPreprocessor.transformS c10state (dropColumns c10X [c10state.cfg.target_column]) :=
  ⟨rfl, transform_drops_target_column c10state c10X rfl⟩

/-- C2 (amended): `_create_transformers` substitutes defaults silently: an
unrecognized missing-value strategy builds the same transformers as
`'median'`, and an unrecognized categorical encoding the same as
`'onehot'`; no error is raised at construction or at transformer
creation. -/
theorem create_transformers_unknown_names_default (cfg : AutoConfig)
    (nums cats : List String)
    (hm : cfg.missing_strategy ∉ (["median", "mean", "mode", "knn", "iterative"] : List String))
    (he : cfg.categorical_encoding ∉ (["onehot", "target", "ordinal", "frequency"] : List String)) :
    _create_transformers cfg nums cats =
      _create_transformers
        { cfg with missing_strategy := "median", categorical_encoding := "onehot" } nums cats := by
  simp only [List.mem_cons, List.not_mem_nil, or_false, not_or] at hm he
  obtain ⟨hm1, hm2, hm3, hm4, hm5⟩ := hm
  obtain ⟨he1, he2, he3, he4⟩ := he
  unfold _create_transformers
  simp [hm1, hm2, hm3, hm4, hm5, he1, he2, he3, he4]

/-- C2 counterexample: constructing a preprocessor with the unrecognized
strategy names `'bogus'` and `'mystery'` succeeds and stores them
verbatim, and creating the transformers during fit silently produces the
same pipeline as `'median'` + `'onehot'` instead of raising. -/
theorem create_transformers_no_validation_counterexample :
    (AutoPreprocessor.init c2args).cfg.missing_strategy = "bogus" ∧
    (AutoPreprocessor.init c2args).cfg.categorical_encoding = "mystery" ∧
    (AutoPreprocessor.init c2args).is_fitted = false ∧
    _create_transformers (AutoPreprocessor.init c2args).cfg ["x"] ["c"] =
      _create_transformers (AutoPreprocessor.init { target_column := "y" }).cfg ["x"] ["c"] := by
  refine ⟨rfl, rfl, rfl, ?_⟩
  decide

theorem create_transformers_unknown_names_default_witness :
    ((AutoPreprocessor.init c2args).cfg.missing_strategy ∉
      (["median", "mean", "mode", "knn", "iterative"] : List String)) ∧
    ((AutoPreprocessor.init c2args).cfg.categorical_encoding ∉
      (["onehot", "target", "ordinal", "frequency"] : List String)) ∧
    _create_transformers (AutoPreprocessor.init c2args).cfg ["x"] ["c"] =
      _create_transformers
        { (AutoPreprocessor.init c2args).cfg with
            missing_strategy := "median", categorical_encoding := "onehot" } ["x"] ["c"] :=
  ⟨by decide, by decide,
    create_transformers_unknown_names_default (AutoPreprocessor.init c2args).cfg ["x"] ["c"]
      (by decide) (by decide)⟩

end AutoQuanta
